import Mathlib

/-!
Verification development for the MyBeatSaberStats cross-service data pipeline.

The Python source is shallowly embedded: JSON values become the inductive
`JValue` (numbers are modelled as exact rationals), dictionaries become
association lists, network traffic becomes explicit response scripts, and
functions that can raise an uncaught Python exception return `Option`/`Except`.
Every definition is translated from the corresponding function of the
repository; file/line references are given in the doc comments.
-/

/-- A JSON-like Python value (numbers modelled as exact rationals). -/
inductive JValue where
  | null : JValue
  | bool (b : Bool) : JValue
  | num (q : ℚ) : JValue
  | str (s : String) : JValue
  | arr (xs : List JValue) : JValue
  | obj (fields : List (String × JValue)) : JValue
deriving Repr

/-- Boolean equality on `JValue` (used where Python compares dict keys). -/
def jeq : JValue → JValue → Bool
  | JValue.null, JValue.null => true
  | JValue.bool a, JValue.bool b => a == b
  | JValue.num a, JValue.num b => a == b
  | JValue.str a, JValue.str b => a == b
  | JValue.arr a, JValue.arr b => jeqList a b
  | JValue.obj a, JValue.obj b => jeqFields a b
  | _, _ => false
where
  jeqList : List JValue → List JValue → Bool
    | [], [] => true
    | x :: xs, y :: ys => jeq x y && jeqList xs ys
    | _, _ => false
  jeqFields : List (String × JValue) → List (String × JValue) → Bool
    | [], [] => true
    | (k, x) :: xs, (l, y) :: ys => k == l && jeq x y && jeqFields xs ys
    | _, _ => false

/-- `d.get(key)` on a Python dict: `null` when the key is absent
(Python returns `None` both for an absent key and for a stored `None`). -/
def jGet : List (String × JValue) → String → JValue
  | [], _ => JValue.null
  | (k, v) :: rest, key => if k = key then v else jGet rest key

/-- `d.get(key, default)` on a Python dict. -/
def jGetD : List (String × JValue) → String → JValue → JValue
  | [], _, d => d
  | (k, v) :: rest, key, d => if k = key then v else jGetD rest key d

/-- `key in d` on a Python dict (key presence, independent of the value). -/
def jHasKey : List (String × JValue) → String → Bool
  | [], _ => false
  | (k, _) :: rest, key => k = key || jHasKey rest key

/-- Python truthiness of a value. -/
def jTruthy : JValue → Bool
  | JValue.null => false
  | JValue.bool b => b
  | JValue.num q => q != 0
  | JValue.str s => s ≠ ""
  | JValue.arr xs => !xs.isEmpty
  | JValue.obj fs => !fs.isEmpty

/-- `x is None` for a fetched dict value (absent keys come back as `null`). -/
def JValue.isNull : JValue → Bool
  | JValue.null => true
  | _ => false

/-- `a or b` in Python (first operand when truthy, else second operand). -/
def jOr (a b : JValue) : JValue := if jTruthy a then a else b

/-- Digits-to-number accumulator for the numeric-string parsers. -/
def digitsToNat (cs : List Char) : Nat :=
  cs.foldl (fun a c => a * 10 + (c.toNat - 48)) 0

/-- Unsigned decimal literal as accepted by Python `float()`:
digits, optionally with a single decimal point, at least one digit in total. -/
def parseUnsignedDec (cs : List Char) : Option ℚ :=
  let intPart := cs.takeWhile Char.isDigit
  let rest := cs.dropWhile Char.isDigit
  match rest with
  | [] => if intPart.isEmpty then none else some (digitsToNat intPart : ℚ)
  | c :: frac =>
    if c = Char.ofNat 46 then
      if frac.all Char.isDigit && !(intPart.isEmpty && frac.isEmpty) then
        some ((digitsToNat intPart : ℚ) + (digitsToNat frac : ℚ) / (10 ^ frac.length))
      else none
    else none

/-- Strip leading and trailing whitespace, as `float()`/`int()` allow. -/
def stripSpace (cs : List Char) : List Char :=
  ((cs.dropWhile Char.isWhitespace).reverse.dropWhile Char.isWhitespace).reverse

/-- Python `float(s)` on a string, restricted to plain signed decimals
(exponents, `inf` and `nan` are outside the rational model). `none` means
the call raises `ValueError`. -/
def parsePyFloat (s : String) : Option ℚ :=
  match stripSpace s.toList with
  | [] => none
  | c :: rest =>
    if c = Char.ofNat 45 then (parseUnsignedDec rest).map Neg.neg
    else if c = Char.ofNat 43 then parseUnsignedDec rest
    else parseUnsignedDec (c :: rest)

/-- Python `int(s)` on a string: optional sign followed by digits only. -/
def parsePyInt (s : String) : Option Int :=
  match stripSpace s.toList with
  | [] => none
  | c :: rest =>
    if c = Char.ofNat 45 then
      if rest ≠ [] && rest.all Char.isDigit then some (-(digitsToNat rest : Int)) else none
    else if c = Char.ofNat 43 then
      if rest ≠ [] && rest.all Char.isDigit then some (digitsToNat rest : Int) else none
    else
      if (c :: rest).all Char.isDigit then some (digitsToNat (c :: rest) : Int) else none

/-- Python `float(x)`: `none` models a raised `TypeError`/`ValueError`. -/
def pyFloat : JValue → Option ℚ
  | JValue.num q => some q
  | JValue.bool b => some (if b then 1 else 0)
  | JValue.str s => parsePyFloat s
  | _ => none

/-- Truncation toward zero, the behaviour of Python `int()` on a float. -/
def pyTrunc (q : ℚ) : Int :=
  if 0 ≤ q then q.floor else -((-q).floor)

/-- Python `int(x)`: `none` models a raised `TypeError`/`ValueError`. -/
def pyInt : JValue → Option Int
  | JValue.num q => some (pyTrunc q)
  | JValue.bool b => some (if b then 1 else 0)
  | JValue.str s => parsePyInt s
  | _ => none

/-- The shared base/max fallback of the two accuracy extractors:
`max(0.0, min(100.0, base / max_score * 100.0))`, `none` when a value is
missing, fails `float()`, or `max_score <= 0`. In the rational model
`math.isfinite` always holds. -/
def accFromBaseMax (base maxScore : JValue) : Option ℚ :=
  if base.isNull || maxScore.isNull then none
  else
    match pyFloat base, pyFloat maxScore with
    | some b, some m => if m ≤ 0 then none else some (max 0 (min 100 (b / m * 100)))
    | _, _ => none

/-- The direct-accuracy branch shared by both extractors
(`scoresaber.py` lines 861-874, `beatleader.py` lines 497-507): a value
`<= 0` is reset to `0.0` and falls through; then `<= 1.0` is scaled by 100,
`<= 100.0` kept, `<= 10000.0` divided by 100, larger values fall through.
`some (some r)` returns `r`, `some none` falls through to base/max,
`none` models a raised exception. -/
def accDirect (acc : JValue) : Option (Option ℚ) :=
  if acc.isNull then some none
  else
    match pyFloat acc with
    | none => none
    | some q =>
      let qf := if q ≤ 0 then 0 else q
      if 0 < qf then
        if qf ≤ 1 then some (some (qf * 100))
        else if qf ≤ 100 then some (some qf)
        else if qf ≤ 10000 then some (some (qf / 100))
        else some none
      else some none

/-- `_extract_scoresaber_accuracy` (collector/scoresaber.py lines 844-890).
Tries `accuracy` then `acc`; normalises by magnitude; otherwise derives the
accuracy from `baseScore` (falling back to `score`) and `maxScore`, clamped
to [0,100]. `none` is Python `None` (the surrounding `try` turns every raise
into `None` as well). -/
def extract_scoresaber_accuracy (score_info : List (String × JValue)) : Option ℚ :=
  let acc0 := jGet score_info "accuracy"
  let acc := if acc0.isNull then jGet score_info "acc" else acc0
  match accDirect acc with
  | none => none
  | some (some r) => some r
  | some none =>
    let base0 := jGet score_info "baseScore"
    let base := if base0.isNull then jGet score_info "score" else base0
    accFromBaseMax base (jGet score_info "maxScore")

/-- `_extract_beatleader_accuracy` (collector/beatleader.py lines 483-523).
Identical to the ScoreSaber extractor except that the score fallback field
is `modifiedScore`. -/
def extract_beatleader_accuracy (score_info : List (String × JValue)) : Option ℚ :=
  let acc0 := jGet score_info "accuracy"
  let acc := if acc0.isNull then jGet score_info "acc" else acc0
  match accDirect acc with
  | none => none
  | some (some r) => some r
  | some none =>
    let base0 := jGet score_info "baseScore"
    let base := if base0.isNull then jGet score_info "modifiedScore" else base0
    accFromBaseMax base (jGet score_info "maxScore")

/-- `ScoreSaberPlayer` (scoresaber.py lines 12-21). Field values are kept as
raw `JValue`s because the dataclass performs no validation when rebuilt from
cached JSON via `cls(**item)`. -/
structure ScoreSaberPlayer where
  id : JValue
  name : JValue
  country : JValue
  pp : JValue
  global_rank : JValue
  country_rank : JValue
  ranked_play_count : JValue
deriving Repr

/-- `BeatLeaderPlayer` (beatleader.py lines 13-23), raw-valued like
`ScoreSaberPlayer`. -/
structure BeatLeaderPlayer where
  id : JValue
  name : JValue
  country : JValue
  pp : JValue
  global_rank : JValue
  country_rank : JValue
  ranked_play_count : JValue
deriving Repr

/-- Keyword names accepted by both player dataclasses. -/
def playerFieldNames : List String :=
  ["id", "name", "country", "pp", "global_rank", "country_rank", "ranked_play_count"]

/-- Keyword names that have no default and must be supplied. -/
def playerRequiredFieldNames : List String :=
  ["id", "name", "country", "pp", "global_rank", "country_rank"]

/-- `ScoreSaberPlayer(**item)`: `none` models the `TypeError` raised when a
required field is missing or an unexpected keyword appears; the optional
`ranked_play_count` defaults to `None`. -/
def mkScoreSaberPlayer (item : List (String × JValue)) : Option ScoreSaberPlayer :=
  if (item.all fun kv => playerFieldNames.contains kv.fst)
      && (playerRequiredFieldNames.all fun k => jHasKey item k) then
    some ⟨jGet item "id", jGet item "name", jGet item "country", jGet item "pp",
      jGet item "global_rank", jGet item "country_rank", jGet item "ranked_play_count"⟩
  else none

/-- `BeatLeaderPlayer(**item)`, same keyword discipline. -/
def mkBeatLeaderPlayer (item : List (String × JValue)) : Option BeatLeaderPlayer :=
  if (item.all fun kv => playerFieldNames.contains kv.fst)
      && (playerRequiredFieldNames.all fun k => jHasKey item k) then
    some ⟨jGet item "id", jGet item "name", jGet item "country", jGet item "pp",
      jGet item "global_rank", jGet item "country_rank", jGet item "ranked_play_count"⟩
  else none

/-- Build every dict entry of a JSON list, failing the whole comprehension if
any single construction fails (Python raises out of the list comprehension). -/
def buildAll (mk : List (String × JValue) → Option α) : List JValue → Option (List α)
  | [] => some []
  | JValue.obj fields :: rest =>
    match mk fields, buildAll mk rest with
    | some x, some xs => some (x :: xs)
    | _, _ => none
  | _ :: rest => buildAll mk rest

/-- `_load_list_cache` (collector/accsaber.py lines 55-65) specialised to a
player dataclass: absent file, non-list JSON or any construction error all
yield the empty list. The file slot is `none` when the file does not exist. -/
def load_list_cache (mk : List (String × JValue) → Option α) (content : Option JValue) : List α :=
  match content with
  | some (JValue.arr items) => (buildAll mk items).getD []
  | _ => []

/-- On-disk cache state touched by the player-index rebuild: the two global
ranking caches it reads and the `players_index.json` it is documented to
write. Each slot is the parsed content of the file, `none` when absent. -/
structure CacheState where
  scoresaber_ranking : Option JValue
  beatleader_ranking : Option JValue
  players_index : Option JValue
deriving Repr

/-- ASCII model of Python `str.lower`. -/
def pyLower (s : String) : String := String.mk (s.toList.map Char.toLower)

/-- ASCII model of Python `str.upper`. -/
def pyUpper (s : String) : String := String.mk (s.toList.map Char.toUpper)

/-- `_norm_name` (collector/collector.py lines 106-107): lowercase and keep
alphanumeric characters only. -/
def norm_name (name : String) : String :=
  String.mk ((pyLower name).toList.filter Char.isAlphanum)

/-- One `ss_by_name_country` bucket insertion:
`ss_by_name_country.setdefault(key, []).append(p)`. -/
def bumpNameCountry (m : List ((String × String) × List ScoreSaberPlayer))
    (k : String × String) (p : ScoreSaberPlayer) :
    List ((String × String) × List ScoreSaberPlayer) :=
  if m.any fun kv => kv.fst = k then
    m.map fun kv => if kv.fst = k then (kv.fst, kv.snd ++ [p]) else kv
  else m ++ [(k, [p])]

/-- The per-player step of the `ss_by_name_country` loop
(collector/collector.py lines 134-138); `none` models the `AttributeError`
raised when a truthy cached `name`/`country` is not a string. -/
def nameCountryStep (m : List ((String × String) × List ScoreSaberPlayer))
    (p : ScoreSaberPlayer) : Option (List ((String × String) × List ScoreSaberPlayer)) :=
  if !jTruthy p.name || !jTruthy p.country then some m
  else
    match p.name, p.country with
    | JValue.str n, JValue.str c => some (bumpNameCountry m (norm_name n, pyUpper c) p)
    | _, _ => none

/-- Fold `nameCountryStep` over the cached ScoreSaber players. -/
def buildNameCountry (ps : List ScoreSaberPlayer) :
    Option (List ((String × String) × List ScoreSaberPlayer)) :=
  ps.foldlM nameCountryStep []

/-- An entry of the unified player index. -/
structure IndexEntry where
  scoresaber : Option ScoreSaberPlayer
  beatleader : Option BeatLeaderPlayer
deriving Repr

/-- `rebuild_player_index_from_global` (collector/collector.py lines 99-139).
The function loads both global ranking caches, initialises `index = {}`,
builds the `ss_by_name_country` fallback map — and then its body ends: no
index entries are ever created, no linking happens, and `_save_player_index`
is never called, although its own docstring says it rebuilds
`players_index.json`. The model returns the unchanged cache state together
with the local `index` and `ss_by_name_country` values at the point the
function returns; `none` models an uncaught exception. -/
def rebuild_player_index_from_global (st : CacheState) :
    Option (CacheState × List (String × IndexEntry)
      × List ((String × String) × List ScoreSaberPlayer)) :=
  let ss_global := load_list_cache mkScoreSaberPlayer st.scoresaber_ranking
  let _bl_global := load_list_cache mkBeatLeaderPlayer st.beatleader_ranking
  let index : List (String × IndexEntry) := []
  match buildNameCountry ss_global with
  | none => none
  | some ss_by_name_country => some (st, index, ss_by_name_country)

/-- `ACCSABER_MIN_AP_SKILL` (accsaber.py line 26). -/
def ACCSABER_MIN_AP_SKILL : ℚ := 0

/-- One attempt of the regex `[-+]?\d*\.?\d+` anchored at the start of the
character list: optional sign, greedy digits, optional decimal point, at
least one digit overall (with the regex backtracking this accepts
`12`, `12.5`, `.5`, and matches only `12` of `12.`). -/
def matchNumAt (cs : List Char) : Option (List Char) :=
  let signAndRest : List Char × List Char :=
    match cs with
    | c :: r => if c = Char.ofNat 45 || c = Char.ofNat 43 then ([c], r) else ([], cs)
    | [] => ([], [])
  let sign := signAndRest.fst
  let rest := signAndRest.snd
  let d1 := rest.takeWhile Char.isDigit
  let r1 := rest.dropWhile Char.isDigit
  match r1 with
  | c :: r2 =>
    if c = Char.ofNat 46 then
      let d2 := r2.takeWhile Char.isDigit
      if !d2.isEmpty then some (sign ++ d1 ++ c :: d2)
      else if !d1.isEmpty then some (sign ++ d1)
      else none
    else if !d1.isEmpty then some (sign ++ d1) else none
  | [] => if !d1.isEmpty then some (sign ++ d1) else none

/-- `re.search` for the numeric pattern: first position with a match wins. -/
def searchNum : List Char → Option (List Char)
  | [] => none
  | c :: rest =>
    match matchNumAt (c :: rest) with
    | some m => some m
    | none => searchNum rest

/-- `_parse_ap` (collector/collector.py lines 1346-1360): strip commas, find
the first numeric substring, convert with `float`; `0.0` for empty text, a
missing match, or a conversion error. -/
def parse_ap (text : String) : ℚ :=
  if text = "" then 0
  else
    let t := text.toList.filter fun c => c ≠ Char.ofNat 44
    match searchNum t with
    | none => 0
    | some m => (parsePyFloat (String.mk m)).getD 0

/-- `AccSaberPlayer` (accsaber.py lines 29-40); the fields used by the
country-rank computation, with the string typing the dataclass declares and
every constructor in the fetch path enforces via `str()`. -/
structure AccPlayer where
  rank : Int
  name : String
  total_ap : String
  average_acc : String
  plays : String
  top_play_pp : String
  true_ap : String
  standard_ap : String
  tech_ap : String
  scoresaber_id : Option String
deriving Repr, DecidableEq

/-- Python `str(sid)` where `sid` is `None` or a string. -/
def strOfSid : Option String → String
  | none => "None"
  | some s => s

/-- Stable insertion step of `sorted(..., key=k, reverse=True)`: the new
element goes after every earlier element whose key is at least its own. -/
def insertDescBy (key : α → ℚ) (x : α) : List α → List α
  | [] => [x]
  | y :: ys => if key x ≤ key y then y :: insertDescBy key x ys else x :: y :: ys

/-- Python `sorted(l, key=key, reverse=True)`: stable descending sort
(ties keep their original relative order). -/
def pySortDescBy (key : α → ℚ) (l : List α) : List α :=
  l.foldl (fun acc x => insertDescBy key x acc) []

/-- The rank-assignment walk of `_rank_for` (collector/collector.py lines
1469-1475): `rank_val` starts at 1 and increases by one per sorted player
until the target `scoresaber_id` is found. -/
def rankWalk (target : String) : List AccPlayer → Nat → Option Nat
  | [], _ => none
  | p :: rest, rank_val =>
    if strOfSid p.scoresaber_id = target then some rank_val
    else rankWalk target rest (rank_val + 1)

/-- `_rank_for` (collector/collector.py lines 1452-1480) generalised over the
metric selector exactly as the source passes `lambda p: getattr(p, ..._ap)`:
filter to players with parsed AP at least `ACCSABER_MIN_AP_SKILL`, sort
descending by parsed AP (stable), and return the 1-based position of the
target player, `none` when the filtered pool is empty or the target does not
appear. -/
def rank_for (same_country_players : List AccPlayer) (get_ap : AccPlayer → String)
    (scoresaber_id : String) : Option Nat :=
  let filtered := same_country_players.filter
    fun p => ACCSABER_MIN_AP_SKILL ≤ parse_ap (get_ap p)
  if filtered.isEmpty then none
  else rankWalk scoresaber_id (pySortDescBy (fun p => parse_ap (get_ap p)) filtered) 1

/-- The same-country pool construction feeding `_rank_for`
(collector/collector.py lines 1441-1450): keep players with a truthy
`scoresaber_id` whose country, looked up in the `ss_country_by_id` map,
equals the target country. -/
def same_country_players (acc_players : List AccPlayer)
    (ss_country_by_id : List (String × String)) (country : String) : List AccPlayer :=
  acc_players.filter fun p =>
    match p.scoresaber_id with
    | none => false
    | some sid =>
      sid ≠ "" &&
        match ss_country_by_id.lookup sid with
        | some cc => cc = country
        | none => false

/-- `x.get(key)` on a value that must be a dict: `none` models the
`AttributeError` raised when it is not. -/
def dGet (v : JValue) (k : String) : Option JValue :=
  match v with
  | JValue.obj f => some (jGet f k)
  | _ => none

/-- `x.get(key, default)` on a value that must be a dict. -/
def dGetD (v : JValue) (k : String) (d : JValue) : Option JValue :=
  match v with
  | JValue.obj f => some (jGetD f k d)
  | _ => none

/-- `m[k] = v` on a Python dict modelled as an insertion-ordered
association list: overwrite in place, or append a fresh key at the end. -/
def setAssoc (m : List (String × α)) (k : String) (v : α) : List (String × α) :=
  if m.any fun kv => kv.fst = k then
    m.map fun kv => if kv.fst = k then (k, v) else kv
  else m ++ [(k, v)]

/-- `counter[k] += 1` on a `defaultdict(int)` keyed by tier. -/
def bumpCount (m : List (Int × Nat)) (k : Int) : List (Int × Nat) :=
  if m.any fun kv => kv.fst = k then
    m.map fun kv => if kv.fst = k then (kv.fst, kv.snd + 1) else kv
  else m ++ [(k, 1)]

/-- Lookup with the `defaultdict(int)` default. -/
def getCount (m : List (Int × Nat)) (k : Int) : Nat := ((m.lookup k).getD 0)

/-- `sums[k] += q` on a `defaultdict(float)` keyed by tier. -/
def addQ (m : List (Int × ℚ)) (k : Int) (q : ℚ) : List (Int × ℚ) :=
  if m.any fun kv => kv.fst = k then
    m.map fun kv => if kv.fst = k then (kv.fst, kv.snd + q) else kv
  else m ++ [(k, q)]

/-- Lookup with the `defaultdict(float)` default. -/
def getQ (m : List (Int × ℚ)) (k : Int) : ℚ := ((m.lookup k).getD 0)

/-- Literal `is False` test. -/
def isFalseLit : JValue → Bool
  | JValue.bool false => true
  | _ => false

/-- Literal `is True` test. -/
def isTrueLit : JValue → Bool
  | JValue.bool true => true
  | _ => false

/-- Prefix test on character lists. -/
def isPrefixChars : List Char → List Char → Bool
  | [], _ => true
  | _ :: _, [] => false
  | a :: as1, b :: bs => a == b && isPrefixChars as1 bs

/-- Substring test on character lists (`needle in hay`). -/
def containsSub (needle : List Char) : List Char → Bool
  | [] => needle.isEmpty
  | c :: rest => isPrefixChars needle (c :: rest) || containsSub needle rest

/-- Python `needle in hay` on strings. -/
def containsStr (needle hay : String) : Bool := containsSub needle.toList hay.toList

/-- Decimal rendering of an integer (`str()` of a Python int). -/
def pyStrInt (i : Int) : String :=
  match i with
  | Int.ofNat n => String.mk (Nat.toDigits 10 n)
  | Int.negSucc n => String.mk (Char.ofNat 45 :: Nat.toDigits 10 (n + 1))

/-- Python `str(x)` as used to build dict keys from JSON ids. Integral
numbers render in decimal; non-integral numbers and containers get
unambiguous placeholder spellings (the claims never use such ids, and the
source never compares these keys against literal strings). -/
def pyStr : JValue → String
  | JValue.str s => s
  | JValue.null => "None"
  | JValue.bool true => "True"
  | JValue.bool false => "False"
  | JValue.num q =>
    if q.den = 1 then pyStrInt q.num
    else pyStrInt q.num ++ "/" ++ String.mk (Nat.toDigits 10 q.den)
  | JValue.arr _ => "<list>"
  | JValue.obj _ => "<dict>"

/-- `StarClearStat` (snapshot.py lines 61-80) as produced by the aggregators
(counts are genuine integers there, rates exact rationals). -/
structure StarClearStat where
  star : Int
  map_count : Nat
  clear_count : Nat
  nf_count : Nat
  ss_count : Nat
  clear_rate : ℚ
  average_acc : Option ℚ
deriving Repr, DecidableEq

/-- The per-chart play state tracked by both aggregators
(`_PerLeaderboardState`, collector/scoresaber.py lines 682-687). -/
structure LbState where
  star : Int
  clear : Bool
  nf : Bool
  ss : Bool
  best_acc : Option ℚ
deriving Repr, DecidableEq

/-- Catalog-pass accumulator: per-tier chart counts and the
chart-id-to-tier map. -/
structure CatalogAcc where
  star_map_count : List (Int × Nat)
  leaderboard_star_bucket : List (String × Int)
deriving Repr

/-- Ascending insertion for integer keys. -/
def insertIntAsc (x : Int) : List Int → List Int
  | [] => [x]
  | y :: ys => if y ≤ x then y :: insertIntAsc x ys else x :: y :: ys

/-- `sorted(keys)` for integer tier keys. -/
def sortIntAsc (l : List Int) : List Int :=
  l.foldl (fun acc x => insertIntAsc x acc) []

/-- One catalog entry of the ScoreSaber aggregator (collector/scoresaber.py
lines 634-667): skip entries flagged `ranked is False` or `deleted is True`,
read `stars` from the entry or its `difficulty` dict, drop negative
ratings, bucket by `int(stars)` clamped to 0, and key by
`str(id or difficulty.leaderboardId)`. `none` models an uncaught
`AttributeError` (non-dict entry or non-dict truthy `difficulty`). -/
def ssCatalogStep (acc : CatalogAcc) (lb : JValue) : Option CatalogAcc :=
  match lb with
  | JValue.obj f =>
    if isFalseLit (jGet f "ranked") then some acc
    else if isTrueLit (jGet f "deleted") then some acc
    else
      let diff := jOr (jGet f "difficulty") (JValue.obj [])
      match (if jTruthy (jGet f "stars") then some (jGet f "stars") else dGet diff "stars") with
      | none => none
      | some stars_value =>
        if stars_value.isNull then some acc
        else
          match pyFloat stars_value with
          | none => some acc
          | some stars =>
            if stars < 0 then some acc
            else
              let sb0 := pyTrunc stars
              let star_bucket := if sb0 < 0 then 0 else sb0
              match (if jTruthy (jGet f "id") then some (jGet f "id")
                     else dGet diff "leaderboardId") with
              | none => none
              | some lb_id_raw =>
                if lb_id_raw.isNull then some acc
                else
                  let lb_id := pyStr lb_id_raw
                  some ⟨bumpCount acc.star_map_count star_bucket,
                        setAssoc acc.leaderboard_star_bucket lb_id star_bucket⟩
  | _ => none

/-- One play item of the ScoreSaber aggregator (collector/scoresaber.py lines
693-786). The catalog-membership check of the chart id is commented out in
the source (lines 720-723), so the tier comes from the play's own `stars`
field; `none` models the uncaught `ValueError`/`TypeError` of `int(stars)`
or an `AttributeError` from a non-dict truthy `difficulty`. -/
def ssScoreStep (per : List (String × LbState)) (item : JValue) :
    Option (List (String × LbState)) :=
  let score_info : JValue := match item with
    | JValue.obj f => jGet f "score"
    | _ => JValue.null
  let leaderboard0 : JValue := match item with
    | JValue.obj f => jGet f "leaderboard"
    | _ => JValue.null
  let leaderboard := if leaderboard0.isNull then item else leaderboard0
  match leaderboard with
  | JValue.obj lf =>
    let diff := jOr (jGet lf "difficulty") (JValue.obj [])
    match (if jTruthy (jGet lf "id") then some (jGet lf "id")
           else dGet diff "leaderboardId") with
    | none => none
    | some lb_id_raw =>
      if lb_id_raw.isNull then some per
      else
        let lb_id := pyStr lb_id_raw
        let tmp_stars := jGet lf "stars"
        if isFalseLit (jGet lf "ranked") then some per
        else
          match (if tmp_stars.isNull then some (-1 : Int) else pyInt tmp_stars) with
          | none => none
          | some star_bucket =>
            if star_bucket < 0 then some per
            else
              let st0 : LbState := match per.lookup lb_id with
                | some st => st
                | none => ⟨star_bucket, false, false, false, none⟩
              let modifiers : String := match score_info with
                | JValue.obj sf => pyStr (jOr (jGet sf "modifiers") (JValue.str ""))
                | _ => ""
              let mods_upper := pyUpper modifiers
              let st1 : LbState :=
                if containsStr "NF" mods_upper then { st0 with nf := true }
                else if containsStr "SS" mods_upper then { st0 with ss := true }
                else
                  let acc : Option ℚ := match score_info with
                    | JValue.obj sf =>
                      match extract_scoresaber_accuracy sf with
                      | some a => some a
                      | none =>
                        let base := jOr (jOr (jGet sf "baseScore") (jGet sf "score"))
                          (jGet sf "modifiedScore")
                        let max_score_lb := jGet lf "maxScore"
                        if base.isNull || max_score_lb.isNull then none
                        else
                          match pyFloat base, pyFloat max_score_lb with
                          | some b, some m =>
                            if 0 < m then some (max 0 (min 100 (b / m * 100))) else none
                          | _, _ => none
                    | _ => none
                  let stc := { st0 with clear := true }
                  match acc with
                  | none => stc
                  | some a =>
                    match stc.best_acc with
                    | none => { stc with best_acc := some a }
                    | some best => if best < a then { stc with best_acc := some a } else stc
              some (setAssoc per lb_id st1)
  | _ => some per

/-- Tier tallies accumulated from the per-chart states. -/
structure TierTally where
  clear : List (Int × Nat)
  nf : List (Int × Nat)
  ss : List (Int × Nat)
  accSum : List (Int × ℚ)
  accCount : List (Int × Nat)
deriving Repr

/-- Fold of the state-classification loop shared by both aggregators
(collector/scoresaber.py lines 790-811): `clear` wins over `nf` over `ss`,
and a finite best accuracy of a cleared chart feeds the tier average. -/
def tallyStates (per : List (String × LbState)) : TierTally :=
  per.foldl
    (fun t kv =>
      let st := kv.snd
      if st.clear then
        match st.best_acc with
        | some a =>
          ⟨bumpCount t.clear st.star, t.nf, t.ss, addQ t.accSum st.star a,
            bumpCount t.accCount st.star⟩
        | none => { t with clear := bumpCount t.clear st.star }
      else if st.nf then { t with nf := bumpCount t.nf st.star }
      else if st.ss then { t with ss := bumpCount t.ss st.star }
      else t)
    ⟨[], [], [], [], []⟩

/-- The emission loop shared by both aggregators (collector/scoresaber.py
lines 816-840): one `StarClearStat` per catalog tier in ascending order,
`clear_rate = clear_count / map_count`, average accuracy absent when no
cleared chart contributed. -/
def emitStats (star_map_count : List (Int × Nat)) (t : TierTally) : List StarClearStat :=
  (sortIntAsc (star_map_count.map fun kv => kv.fst)).map fun star =>
    let map_count := getCount star_map_count star
    let clear_count := getCount t.clear star
    let cnt := getCount t.accCount star
    { star := star
      map_count := map_count
      clear_count := clear_count
      nf_count := getCount t.nf star
      ss_count := getCount t.ss star
      clear_rate := if 0 < map_count then (clear_count : ℚ) / (map_count : ℚ) else 0
      average_acc := if 0 < cnt then some (getQ t.accSum star / (cnt : ℚ)) else none }

/-- `_collect_star_stats_from_scoresaber` (collector/scoresaber.py lines
612-842) with the two cache-backed fetches factored out as inputs: the
ranked-catalog list and the player score list. `none` models an uncaught
exception while scanning (the caller turns it into an empty result). -/
def collect_star_stats_from_scoresaber (scoresaber_id : String)
    (leaderboards scores : List JValue) : Option (List StarClearStat) :=
  if scoresaber_id = "" then some []
  else
    match leaderboards.foldlM ssCatalogStep ⟨[], []⟩ with
    | none => none
    | some cat =>
      if cat.star_map_count.isEmpty || cat.leaderboard_star_bucket.isEmpty then some []
      else
        match scores.foldlM ssScoreStep [] with
        | none => none
        | some per => some (emitStats cat.star_map_count (tallyStates per))

/-- A `StarClearStat` as held inside a loaded `Snapshot` object: the
dataclass performs no validation, so every field is a raw value
(snapshot.py lines 61-80). -/
structure PyStarStat where
  star : JValue
  map_count : JValue
  clear_count : JValue
  nf_count : JValue
  ss_count : JValue
  clear_rate : JValue
  average_acc : JValue
deriving Repr

/-- A `Snapshot` object (snapshot.py lines 83-142): 36 raw-valued scalar
fields in declaration order plus the two star-stat lists. -/
structure PySnapshot where
  taken_at : JValue
  steam_id : JValue
  scoresaber_id : JValue
  scoresaber_name : JValue
  scoresaber_country : JValue
  scoresaber_pp : JValue
  scoresaber_rank_global : JValue
  scoresaber_rank_country : JValue
  scoresaber_average_ranked_acc : JValue
  scoresaber_total_play_count : JValue
  scoresaber_ranked_play_count : JValue
  beatleader_id : JValue
  beatleader_name : JValue
  beatleader_country : JValue
  beatleader_pp : JValue
  beatleader_rank_global : JValue
  beatleader_rank_country : JValue
  accsaber_overall_rank : JValue
  accsaber_true_rank : JValue
  accsaber_standard_rank : JValue
  accsaber_tech_rank : JValue
  accsaber_overall_rank_country : JValue
  accsaber_true_rank_country : JValue
  accsaber_standard_rank_country : JValue
  accsaber_tech_rank_country : JValue
  accsaber_overall_play_count : JValue
  accsaber_true_play_count : JValue
  accsaber_standard_play_count : JValue
  accsaber_tech_play_count : JValue
  accsaber_overall_ap : JValue
  accsaber_true_ap : JValue
  accsaber_standard_ap : JValue
  accsaber_tech_ap : JValue
  beatleader_average_ranked_acc : JValue
  beatleader_total_play_count : JValue
  beatleader_ranked_play_count : JValue
  star_stats : List PyStarStat
  beatleader_star_stats : List PyStarStat
deriving Repr

/-- All keyword names of the `Snapshot` dataclass, in declaration order. -/
def snapshotFieldNames : List String :=
  ["taken_at", "steam_id",
   "scoresaber_id", "scoresaber_name", "scoresaber_country", "scoresaber_pp",
   "scoresaber_rank_global", "scoresaber_rank_country", "scoresaber_average_ranked_acc",
   "scoresaber_total_play_count", "scoresaber_ranked_play_count",
   "beatleader_id", "beatleader_name", "beatleader_country", "beatleader_pp",
   "beatleader_rank_global", "beatleader_rank_country",
   "accsaber_overall_rank", "accsaber_true_rank", "accsaber_standard_rank",
   "accsaber_tech_rank",
   "accsaber_overall_rank_country", "accsaber_true_rank_country",
   "accsaber_standard_rank_country", "accsaber_tech_rank_country",
   "accsaber_overall_play_count", "accsaber_true_play_count",
   "accsaber_standard_play_count", "accsaber_tech_play_count",
   "accsaber_overall_ap", "accsaber_true_ap", "accsaber_standard_ap", "accsaber_tech_ap",
   "beatleader_average_ranked_acc", "beatleader_total_play_count",
   "beatleader_ranked_play_count",
   "star_stats", "beatleader_star_stats"]

/-- The `Snapshot` keyword names without a default value. -/
def snapshotRequiredNames : List String :=
  ["taken_at", "steam_id",
   "scoresaber_id", "scoresaber_name", "scoresaber_country", "scoresaber_pp",
   "scoresaber_rank_global", "scoresaber_rank_country", "scoresaber_average_ranked_acc",
   "scoresaber_total_play_count", "scoresaber_ranked_play_count",
   "beatleader_id", "beatleader_name", "beatleader_country", "beatleader_pp",
   "beatleader_rank_global", "beatleader_rank_country"]

/-- `StarClearStat` keyword names. -/
def starStatFieldNames : List String :=
  ["star", "map_count", "clear_count", "nf_count", "ss_count", "clear_rate", "average_acc"]

/-- `StarClearStat` keyword names without a default. -/
def starStatRequiredNames : List String :=
  ["star", "map_count", "clear_count", "nf_count"]

/-- `StarClearStat(**s)` from a JSON dict: `none` is the `TypeError` on a
missing required field or unexpected keyword; defaulted fields fall back to
`0`, `0.0` and `None` (snapshot.py lines 74-80). -/
def mkPyStarStat (sf : List (String × JValue)) : Option PyStarStat :=
  if (sf.all fun kv => starStatFieldNames.contains kv.fst)
      && (starStatRequiredNames.all fun k => jHasKey sf k) then
    some ⟨jGet sf "star", jGet sf "map_count", jGet sf "clear_count", jGet sf "nf_count",
      jGetD sf "ss_count" (JValue.num 0), jGetD sf "clear_rate" (JValue.num 0),
      jGet sf "average_acc"⟩
  else none

/-- `asdict` of a star stat, keys in declaration order (used by
`Snapshot.save`, snapshot.py lines 156-158). -/
def starStatToJson (s : PyStarStat) : JValue :=
  JValue.obj [("star", s.star), ("map_count", s.map_count), ("clear_count", s.clear_count),
    ("nf_count", s.nf_count), ("ss_count", s.ss_count), ("clear_rate", s.clear_rate),
    ("average_acc", s.average_acc)]

/-- The key/value list of `asdict(self)` in `Snapshot.save`, keys in
dataclass declaration order. -/
def saveFields (s : PySnapshot) : List (String × JValue) :=
    [("taken_at", s.taken_at), ("steam_id", s.steam_id),
     ("scoresaber_id", s.scoresaber_id), ("scoresaber_name", s.scoresaber_name),
     ("scoresaber_country", s.scoresaber_country), ("scoresaber_pp", s.scoresaber_pp),
     ("scoresaber_rank_global", s.scoresaber_rank_global),
     ("scoresaber_rank_country", s.scoresaber_rank_country),
     ("scoresaber_average_ranked_acc", s.scoresaber_average_ranked_acc),
     ("scoresaber_total_play_count", s.scoresaber_total_play_count),
     ("scoresaber_ranked_play_count", s.scoresaber_ranked_play_count),
     ("beatleader_id", s.beatleader_id), ("beatleader_name", s.beatleader_name),
     ("beatleader_country", s.beatleader_country), ("beatleader_pp", s.beatleader_pp),
     ("beatleader_rank_global", s.beatleader_rank_global),
     ("beatleader_rank_country", s.beatleader_rank_country),
     ("accsaber_overall_rank", s.accsaber_overall_rank),
     ("accsaber_true_rank", s.accsaber_true_rank),
     ("accsaber_standard_rank", s.accsaber_standard_rank),
     ("accsaber_tech_rank", s.accsaber_tech_rank),
     ("accsaber_overall_rank_country", s.accsaber_overall_rank_country),
     ("accsaber_true_rank_country", s.accsaber_true_rank_country),
     ("accsaber_standard_rank_country", s.accsaber_standard_rank_country),
     ("accsaber_tech_rank_country", s.accsaber_tech_rank_country),
     ("accsaber_overall_play_count", s.accsaber_overall_play_count),
     ("accsaber_true_play_count", s.accsaber_true_play_count),
     ("accsaber_standard_play_count", s.accsaber_standard_play_count),
     ("accsaber_tech_play_count", s.accsaber_tech_play_count),
     ("accsaber_overall_ap", s.accsaber_overall_ap),
     ("accsaber_true_ap", s.accsaber_true_ap),
     ("accsaber_standard_ap", s.accsaber_standard_ap),
     ("accsaber_tech_ap", s.accsaber_tech_ap),
     ("beatleader_average_ranked_acc", s.beatleader_average_ranked_acc),
     ("beatleader_total_play_count", s.beatleader_total_play_count),
     ("beatleader_ranked_play_count", s.beatleader_ranked_play_count),
     ("star_stats", JValue.arr (s.star_stats.map starStatToJson)),
     ("beatleader_star_stats", JValue.arr (s.beatleader_star_stats.map starStatToJson))]

/-- `Snapshot.save` (snapshot.py lines 150-164) up to JSON serialisation:
`asdict(self)` with the two star-stat lists rendered as arrays of dicts.
The write itself is whole-file, so the persisted JSON equals this value. -/
def snapshot_save (s : PySnapshot) : JValue := JValue.obj (saveFields s)

/-- The old-format star-stat path of `Snapshot.load` (snapshot.py lines
192-207): `{"star", "cleared", "ranked_cleared", "clear_rate"}` with `int`
and `float` coercions that raise out of `load` on unconvertible values
(`none`). -/
def oldFormatConvert (sf : List (String × JValue)) : Option PyStarStat :=
  match pyInt (jGetD sf "star" (JValue.num 0)), pyInt (jGetD sf "cleared" (JValue.num 0)) with
  | some star, some cleared =>
    match (if jHasKey sf "ranked_cleared" then pyInt (jGet sf "ranked_cleared")
           else some cleared),
        pyFloat (jGetD sf "clear_rate" (JValue.num 0)) with
    | some ranked_cleared, some clear_rate =>
      some ⟨JValue.num (star : ℚ), JValue.num (cleared : ℚ), JValue.num (ranked_cleared : ℚ),
        JValue.num (if ranked_cleared < cleared then ((cleared - ranked_cleared : Int) : ℚ) else 0),
        JValue.num 0, JValue.num clear_rate, JValue.null⟩
    | _, _ => none
  | _, _ => none

/-- One `star_stats` item of `Snapshot.load` (snapshot.py lines 177-207):
non-dicts are skipped; dicts carrying a new-format key get `ss_count`
defaulted to 0 and are built directly, falling back to the old format on a
`TypeError`; remaining dicts take the old-format path. `some none` = the
item is skipped, `none` = `load` raises. -/
def ssConvertItem (s : JValue) : Option (Option PyStarStat) :=
  match s with
  | JValue.obj sf =>
    if jHasKey sf "map_count" || jHasKey sf "clear_count" || jHasKey sf "nf_count" then
      let sf2 := if jHasKey sf "ss_count" then sf else sf ++ [("ss_count", JValue.num 0)]
      match mkPyStarStat sf2 with
      | some st => some (some st)
      | none => (oldFormatConvert sf).map some
    else (oldFormatConvert sf).map some
  | _ => some none

/-- One `beatleader_star_stats` item of `Snapshot.load` (snapshot.py lines
214-223): new format only, `ss_count` defaulted to 0, `TypeError` skips the
item instead of falling back. -/
def blConvertItem (s : JValue) : Option (Option PyStarStat) :=
  match s with
  | JValue.obj sf =>
    let sf2 := if jHasKey sf "ss_count" then sf else sf ++ [("ss_count", JValue.num 0)]
    match mkPyStarStat sf2 with
    | some st => some (some st)
    | none => some none
  | _ => some none

/-- Iterate `data.get("star_stats") or []`: lists convert item by item,
strings and dicts iterate to non-dict items (all skipped), other truthy
values raise `TypeError` (`none`). -/
def convertList (conv : JValue → Option (Option PyStarStat)) : JValue → Option (List PyStarStat)
  | JValue.arr items =>
    items.foldlM (fun acc s => (conv s).map fun r => acc ++ r.toList) []
  | JValue.str _ => some []
  | JValue.obj _ => some []
  | _ => none

/-- `Snapshot(**data)` at the end of `Snapshot.load` (snapshot.py line 227):
every top-level key must be a known keyword (including the two star-stat
keys the loader has just assigned), every field without a default must be
present, and optional fields default to `None`; `none` models the
`TypeError` otherwise. -/
def snapshotFromFields (f : List (String × JValue))
    (converted bl_converted : List PyStarStat) : Option PySnapshot :=
  if (f.all fun kv => snapshotFieldNames.contains kv.fst)
      && (snapshotRequiredNames.all fun k => jHasKey f k) then
    some ⟨jGet f "taken_at", jGet f "steam_id",
            jGet f "scoresaber_id", jGet f "scoresaber_name", jGet f "scoresaber_country",
            jGet f "scoresaber_pp", jGet f "scoresaber_rank_global",
            jGet f "scoresaber_rank_country", jGet f "scoresaber_average_ranked_acc",
            jGet f "scoresaber_total_play_count", jGet f "scoresaber_ranked_play_count",
            jGet f "beatleader_id", jGet f "beatleader_name", jGet f "beatleader_country",
            jGet f "beatleader_pp", jGet f "beatleader_rank_global",
            jGet f "beatleader_rank_country",
            jGet f "accsaber_overall_rank", jGet f "accsaber_true_rank",
            jGet f "accsaber_standard_rank", jGet f "accsaber_tech_rank",
            jGet f "accsaber_overall_rank_country", jGet f "accsaber_true_rank_country",
            jGet f "accsaber_standard_rank_country", jGet f "accsaber_tech_rank_country",
            jGet f "accsaber_overall_play_count", jGet f "accsaber_true_play_count",
            jGet f "accsaber_standard_play_count", jGet f "accsaber_tech_play_count",
            jGet f "accsaber_overall_ap", jGet f "accsaber_true_ap",
            jGet f "accsaber_standard_ap", jGet f "accsaber_tech_ap",
      jGet f "beatleader_average_ranked_acc", jGet f "beatleader_total_play_count",
      jGet f "beatleader_ranked_play_count",
      converted, bl_converted⟩
  else none

/-- `Snapshot.load` (snapshot.py lines 166-227) after JSON parsing: convert
both star-stat lists with backward compatibility, then `Snapshot(**data)`;
`none` models any raised exception. -/
def snapshot_load (j : JValue) : Option PySnapshot :=
  match j with
  | JValue.obj f =>
    match convertList ssConvertItem (jOr (jGet f "star_stats") (JValue.arr [])) with
    | none => none
    | some converted =>
      match convertList blConvertItem (jOr (jGet f "beatleader_star_stats") (JValue.arr [])) with
      | none => none
      | some bl_converted => snapshotFromFields f converted bl_converted
  | _ => none

/-- One HTTP exchange: a raised network exception, or a status code with the
parsed JSON body (`none` body = `resp.json()` raises). -/
inductive NetResp where
  | exc : NetResp
  | resp (status : Nat) (body : Option JValue) : NetResp
deriving Repr

/-- `_load_cached_rank_maps` (collector/scoresaber.py lines 22-37): the
`leaderboards` list of the cache file, `none` for a missing, corrupt or
wrongly shaped file. The argument is the parsed file content (`none` =
absent file). -/
def loadCachedRankMaps (cache : Option JValue) : Option (List JValue) :=
  match cache with
  | some (JValue.obj f) =>
    match jGet f "leaderboards" with
    | JValue.arr l => some l
    | _ => none
  | _ => none

/-- The cache-dedup loop of `_get_scoresaber_leaderboards_ranked`
(collector/scoresaber.py lines 91-98): index cached charts by their raw `id`
and keep the first occurrence of each. `none` models the uncaught exception
on a non-dict entry or unhashable id. -/
def dedupCached : List JValue → Option (List (JValue × JValue) × List JValue) :=
  let step := fun (acc : List (JValue × JValue) × List JValue) (lb : JValue) =>
    match lb with
    | JValue.obj f =>
      let lb_id := jGet f "id"
      match lb_id with
      | JValue.arr _ => none
      | JValue.obj _ => none
      | _ =>
        if acc.fst.any fun kv => jeq kv.fst lb_id then some acc
        else some (acc.fst ++ [(lb_id, lb)], acc.snd ++ [lb])
    | _ => none
  fun l => l.foldlM step ([], [])

/-- Result of one `add_leaderboards` call (collector/scoresaber.py lines
230-235): the extended append list and id index, plus whether the loop ran to
completion (`ok = false` models the exception raised partway, with the
mutations up to that element kept). -/
structure AddResult where
  append : List JValue
  existing : List (JValue × JValue)
  ok : Bool

/-- `add_leaderboards` (collector/scoresaber.py lines 230-235). -/
def addLeaderboards (append : List JValue) (existing : List (JValue × JValue)) :
    List JValue → AddResult
  | [] => ⟨append, existing, true⟩
  | lb :: rest =>
    match lb with
    | JValue.obj f =>
      let lb_id := jGet f "id"
      match lb_id with
      | JValue.arr _ => ⟨append, existing, false⟩
      | JValue.obj _ => ⟨append, existing, false⟩
      | _ =>
        if existing.any fun kv => jeq kv.fst lb_id then addLeaderboards append existing rest
        else addLeaderboards (append ++ [lb]) (existing ++ [(lb_id, lb)]) rest
    | _ => ⟨append, existing, false⟩

/-- A sort key comparison as Python performs it inside `list.sort`: numbers
(and bools) compare with numbers, strings with strings, anything else
raises (`none`). -/
def jvLt (a b : JValue) : Option Bool :=
  match a, b with
  | JValue.num x, JValue.num y => some (decide (x < y))
  | JValue.num x, JValue.bool y => some (decide (x < if y then 1 else 0))
  | JValue.bool x, JValue.num y => some (decide ((if x then (1:ℚ) else 0) < y))
  | JValue.bool x, JValue.bool y => some (!x && y)
  | JValue.str x, JValue.str y => some (decide (x < y))
  | _, _ => none

/-- Stable descending insertion by the chart-id key, propagating a raised
comparison. -/
def insertByIdDesc (key : JValue → Option JValue) (x : JValue) :
    List JValue → Option (List JValue)
  | [] => some [x]
  | y :: ys =>
    match key x, key y with
    | some kx, some ky =>
      match jvLt ky kx with
      | none => none
      | some true => some (x :: y :: ys)
      | some false => (insertByIdDesc key x ys).map fun zs => y :: zs
    | _, _ => none

/-- `leaderboards.sort(key=lambda x: x.get("id", 0), reverse=True)`
(collector/scoresaber.py line 205): `none` when a key access or comparison
raises (the surrounding `except: pass` then keeps the unsorted list). -/
def pySortByIdDesc (l : List JValue) : Option (List JValue) :=
  l.foldlM (fun acc x => insertByIdDesc (fun v => dGetD v "id" (JValue.num 0)) x acc) []

/-- `math.ceil` on an exact rational. -/
def ratCeil (q : ℚ) : Int := Int.ceil q

/-- `range(2, hi + 1)` as the page list of the incremental ScoreSaber
refetch. -/
def pageRange2 (hi : Int) : List Nat :=
  if hi < 2 then [] else (List.range (hi - 1).toNat).map fun k => 2 + k

/-- Outcome of the incremental refetch loop: the accumulated additions and
the request log. -/
structure SsLoopOut where
  append : List JValue
  existing : List (JValue × JValue)
  log : List Nat

/-- The incremental page loop of `_get_scoresaber_leaderboards_ranked`
(collector/scoresaber.py lines 154-198): every failure (network error,
non-200, 404, JSON error, bad entry) breaks out, keeping the additions
gathered so far; the loop also stops once the grand total reaches the fresh
metadata total or a page comes back empty. -/
def ssFetchLoop (net : Nat → NetResp) (latest_total cached_total : Int) :
    List Nat → List JValue → List (JValue × JValue) → List Nat → SsLoopOut
  | [], append, existing, log => ⟨append, existing, log⟩
  | i :: rest, append, existing, log =>
    let log := log ++ [i]
    match net i with
    | NetResp.exc => ⟨append, existing, log⟩
    | NetResp.resp st body =>
      if st = 404 then ⟨append, existing, log⟩
      else if 400 ≤ st then ⟨append, existing, log⟩
      else
        match body with
        | none => ⟨append, existing, log⟩
        | some data_page =>
          match data_page with
          | JValue.obj dpf =>
            match jOr (jGet dpf "leaderboards") (JValue.arr []) with
            | JValue.arr l =>
              let r := addLeaderboards append existing l
              if !r.ok then ⟨r.append, r.existing, log⟩
              else if latest_total ≤ cached_total + r.append.length then
                ⟨r.append, r.existing, log⟩
              else if l.isEmpty then ⟨r.append, r.existing, log⟩
              else ssFetchLoop net latest_total cached_total rest r.append r.existing log
            | _ => ⟨append, existing, log⟩
          | _ => ⟨append, existing, log⟩

/-- The merge/sort tail of `_get_scoresaber_leaderboards_ranked`
(collector/scoresaber.py lines 199-216): prepend the additions, sort by id
descending inside a `try` whose failure keeps the merged order. The cache
write does not affect the returned value and is elided. -/
def ssMergeResult (leaderboards append : List JValue) (log : List Nat) :
    List JValue × List Nat :=
  if append.isEmpty then (leaderboards, log)
  else
    let merged := append ++ leaderboards
    ((pySortByIdDesc merged).getD merged, log)

/-- `_get_scoresaber_leaderboards_ranked` (collector/scoresaber.py lines
72-228) over a page-indexed network script, returning the chart list and
the ordered log of pages fetched; `none` models the uncaught exception of
the cache-dedup loop. When a cache exists, exactly page 1 is fetched first,
and an unchanged (not larger) metadata total returns the cached list with no
further requests. -/
def ssGetLeaderboardsRanked (cache : Option JValue) (net : Nat → NetResp) :
    Option (List JValue × List Nat) :=
  match dedupCached ((loadCachedRankMaps cache).getD []) with
  | none => none
  | some ex_lbs =>
    let existing := ex_lbs.fst
    let leaderboards := ex_lbs.snd
    let cached_total : Int := leaderboards.length
    match net 1 with
    | NetResp.exc => some (leaderboards, [1])
    | NetResp.resp st body =>
      if st = 404 then some (leaderboards, [1])
      else if 400 ≤ st then some (leaderboards, [1])
      else
        match body with
        | none => some (leaderboards, [1])
        | some data =>
          match data with
          | JValue.obj df =>
            match jOr (jGet df "metadata") (JValue.obj []) with
            | JValue.obj mf =>
              let parsed : Option (Int × Int) :=
                match pyInt (jGetD mf "total" (JValue.num 0)),
                    pyInt (jGetD mf "itemsPerPage" (JValue.num 0)) with
                | some t, some pp0 => some (t, if pp0 = 0 then 1 else pp0)
                | _, _ => none
              let lt_pp := parsed.getD (cached_total, 100)
              if lt_pp.fst ≤ cached_total then some (leaderboards, [1])
              else
                match jOr (jGet df "leaderboards") (JValue.arr []) with
                | JValue.arr l =>
                  let r := addLeaderboards [] existing l
                  if !r.ok then some (leaderboards, [1])
                  else
                    let new_total := cached_total + r.append.length
                    let total_pages_new := ratCeil ((new_total : ℚ) / (lt_pp.snd : ℚ))
                    if new_total < lt_pp.fst then
                      let out := ssFetchLoop net lt_pp.fst cached_total
                        (pageRange2 total_pages_new) r.append r.existing [1]
                      some (ssMergeResult leaderboards out.append out.log)
                    else some (ssMergeResult leaderboards r.append [1])
                | _ => some (leaderboards, [1])
            | _ => some (leaderboards, [1])
          | _ => some (leaderboards, [1])

/-- `_load_cached_pages` (collector/beatleader.py lines 20-36). -/
def loadCachedPages (cache : Option JValue) : Option (List JValue) :=
  match cache with
  | some (JValue.obj f) =>
    match jGet f "pages" with
    | JValue.arr l => some l
    | _ => none
  | _ => none

/-- The ranked-only cache validation of `_get_beatleader_leaderboards_ranked`
(collector/beatleader.py lines 140-150): some cached page must carry
`params.type == "Ranked"`. -/
def blRankedOnly (pages : List JValue) : Bool :=
  pages.any fun page =>
    match page with
    | JValue.obj f =>
      match jOr (jGet f "params") (JValue.obj []) with
      | JValue.obj pf => jeq (jGet pf "type") (JValue.str "Ranked")
      | _ => false
    | _ => false

/-- Flatten the cached BeatLeader pages into the chart list
(collector/beatleader.py lines 153-163); `none` models the uncaught
`AttributeError` when a page carries a truthy non-dict `data`. -/
def blAggregateCached : List JValue → Option (List JValue × List JValue) :=
  let step := fun (acc : List JValue × List JValue) (page : JValue) =>
    match page with
    | JValue.obj pf =>
      match jOr (jGet pf "data") (JValue.obj []) with
      | JValue.obj dataf =>
        let items := jOr (jOr (jGet dataf "data") (jGet dataf "leaderboards")) (JValue.arr [])
        match items with
        | JValue.arr l =>
          some (acc.fst ++ [page], acc.snd ++ l.filter fun lb =>
            match lb with
            | JValue.obj _ => true
            | _ => false)
        | _ => some (acc.fst ++ [page], acc.snd)
      | _ => none
    | _ => some acc
  fun pages => pages.foldlM step ([], [])

/-- The cached-total extraction (collector/beatleader.py lines 165-171):
prefer the cached first page's `metadata.total`, fall back to the flattened
length; `none` models the raise on a truthy non-dict `data`/`metadata`. -/
def blCachedTotal (pages : List JValue) (leaderboards : List JValue) : Option Int :=
  match pages with
  | [] => some leaderboards.length
  | p0 :: _ =>
    match p0 with
    | JValue.obj pf =>
      match jOr (jGet pf "data") (JValue.obj []) with
      | JValue.obj dataf =>
        match jOr (jGet dataf "metadata") (JValue.obj []) with
        | JValue.obj mf =>
          some ((pyInt (jGetD mf "total" (JValue.num leaderboards.length))).getD
            leaderboards.length)
        | _ => none
      | _ => none
    | _ => none

/-- Extract the item list of one BeatLeader leaderboards response
(`data.get("data")` falling back to `data.get("leaderboards")`,
collector/beatleader.py lines 219-222). `none` means the value is not a
list (terminating the pagination). -/
def blItemsOf (data : JValue) : Option (List JValue) :=
  match data with
  | JValue.obj df =>
    let items0 := jGet df "data"
    let items := if items0.isNull then jGet df "leaderboards" else items0
    match items with
    | JValue.arr l => some l
    | _ => none
  | _ => none

/-- Outcome of the BeatLeader full-refetch loop: the collected charts, the
request log, and whether an exception was raised out of the loop (the
enclosing handler then returns the partial list as well). -/
structure BlLoopOut where
  leaderboards : List JValue
  log : List Nat

/-- The BeatLeader pagination loop from page 2 onward
(collector/beatleader.py lines 200-231 resp. 251-278), processed over the
remaining response script so that it terminates on every input: a page
beyond the script behaves as a network error. Stops on 404, non-200, JSON
failure, a non-list or empty item list, or a short page. -/
def blFetchLoop (page_size : Nat) : List NetResp → Nat → List JValue → List Nat → BlLoopOut
  | [], _, lbs, log => ⟨lbs, log⟩
  | r :: rest, page, lbs, log =>
    let log := log ++ [page]
    match r with
    | NetResp.exc => ⟨lbs, log⟩
    | NetResp.resp st body =>
      if st = 404 then ⟨lbs, log⟩
      else if 400 ≤ st then ⟨lbs, log⟩
      else
        match body with
        | none => ⟨lbs, log⟩
        | some data =>
          match blItemsOf data with
          | none => ⟨lbs, log⟩
          | some [] => ⟨lbs, log⟩
          | some items =>
            let lbs := lbs ++ items.filter fun lb =>
              match lb with
              | JValue.obj _ => true
              | _ => false
            if items.length < page_size then ⟨lbs, log⟩
            else blFetchLoop page_size rest (page + 1) lbs log

/-- The body of the page-1 step of the BeatLeader full refetch
(collector/beatleader.py lines 200-230 with `page == 1`): `data_first` is
consumed without a new request, then the loop continues from page 2. -/
def blRefetchFrom (data_first : JValue) (net : List NetResp) (page_size : Nat)
    (log : List Nat) : List JValue × List Nat :=
  match blItemsOf data_first with
  | none => ([], log)
  | some [] => ([], log)
  | some items =>
    let lbs := items.filter fun lb =>
      match lb with
      | JValue.obj _ => true
      | _ => false
    if items.length < page_size then (lbs, log)
    else
      let out := blFetchLoop page_size (net.drop 1) 2 lbs log
      (out.leaderboards, out.log)

/-- `_get_beatleader_leaderboards_ranked` (collector/beatleader.py lines
124-289) over a finite response script (`net.get i` is the response to the
request for page `i+1`), returning the chart list and the request log;
`none` models the uncaught raise while flattening a malformed cache. When a
valid ranked cache exists, exactly one request (page 1) is made, and a
metadata total not exceeding the cached total returns the cached flattened
list unchanged. -/
def blGetLeaderboardsRanked (cache : Option JValue) (net : List NetResp) :
    Option (List JValue × List Nat) :=
  let page_size := 100
  let cached_pages0 := loadCachedPages cache
  let cached_pages := match cached_pages0 with
    | some ps => if blRankedOnly ps then some ps else none
    | none => none
  match cached_pages with
  | some ps =>
    match blAggregateCached ps with
    | none => none
    | some pages_lbs =>
      let leaderboards := pages_lbs.snd
      match blCachedTotal pages_lbs.fst leaderboards with
      | none => none
      | some cached_total =>
        match net.getD 0 NetResp.exc with
        | NetResp.exc => some (leaderboards, [1])
        | NetResp.resp st body =>
          if st = 404 then some (leaderboards, [1])
          else if 400 ≤ st then some (leaderboards, [1])
          else
            match body with
            | none => some (leaderboards, [1])
            | some data_first =>
              match data_first with
              | JValue.obj df =>
                match jOr (jGet df "metadata") (JValue.obj []) with
                | JValue.obj mf =>
                  let new_total := (pyInt (jGetD mf "total" (JValue.num cached_total))).getD
                    cached_total
                  if new_total ≤ cached_total then some (leaderboards, [1])
                  else some (blRefetchFrom data_first net page_size [1])
                | _ => some (leaderboards, [1])
              | _ => some (leaderboards, [1])
  | none =>
    let out := blFetchLoop page_size net 1 [] []
    some (out.leaderboards, out.log)

/-- One catalog entry of the BeatLeader aggregator (collector/beatleader.py
lines 544-578): non-dict entries are skipped, only `difficulty.status == 3`
charts count, stars come from `difficulty.stars` or
`difficulty.difficultyRating`. -/
def blCatalogStep (acc : CatalogAcc) (lb : JValue) : Option CatalogAcc :=
  match lb with
  | JValue.obj f =>
    match jOr (jGet f "difficulty") (JValue.obj []) with
    | JValue.obj df =>
      let status_val := (pyInt (jGetD df "status" (JValue.num 0))).getD 0
      if status_val ≠ 3 then some acc
      else
        let stars_value := jOr (jGet df "stars") (jGet df "difficultyRating")
        if stars_value.isNull then some acc
        else
          match pyFloat stars_value with
          | none => some acc
          | some stars =>
            if stars < 0 then some acc
            else
              let sb0 := pyTrunc stars
              let star_bucket := if sb0 < 0 then 0 else sb0
              let lb_id_raw := jOr (jOr (jGet f "id") (jGet df "leaderboardId")) (jGet df "id")
              if lb_id_raw.isNull then some acc
              else
                some ⟨bumpCount acc.star_map_count star_bucket,
                      setAssoc acc.leaderboard_star_bucket (pyStr lb_id_raw) star_bucket⟩
    | _ => none
  | _ => some acc

/-- One play item of the BeatLeader aggregator (collector/beatleader.py lines
593-641): unlike the ScoreSaber side, a play whose chart id is not in the
catalog map is skipped (line 608), and the tier always comes from the
catalog. -/
def blScoreStep (bucket : List (String × Int)) (per : List (String × LbState))
    (item : JValue) : Option (List (String × LbState)) :=
  let leaderboard0 : JValue := match item with
    | JValue.obj f => jGet f "leaderboard"
    | _ => JValue.null
  let leaderboard := if leaderboard0.isNull then item else leaderboard0
  match leaderboard with
  | JValue.obj lf =>
    let diff := jOr (jGet lf "difficulty") (JValue.obj [])
    let idOr : Option JValue :=
      if jTruthy (jGet lf "id") then some (jGet lf "id")
      else
        match dGet diff "leaderboardId" with
        | none => none
        | some b => if jTruthy b then some b else dGet diff "id"
    match idOr with
    | none => none
    | some lb_id_raw =>
      if lb_id_raw.isNull then some per
      else
        let lb_id := pyStr lb_id_raw
        match bucket.lookup lb_id with
        | none => some per
        | some star_bucket =>
          let st0 : LbState := match per.lookup lb_id with
            | some st => st
            | none => ⟨star_bucket, false, false, false, none⟩
          let score_fields : List (String × JValue) := match item with
            | JValue.obj itf =>
              match jGet itf "score" with
              | JValue.obj sf => sf
              | _ => itf
            | _ => []
          let mods_upper := pyUpper (pyStr (jOr (jGet score_fields "modifiers") (JValue.str "")))
          let st1 : LbState :=
            if containsStr "NF" mods_upper then { st0 with nf := true }
            else if containsStr "SS" mods_upper then { st0 with ss := true }
            else
              let stc := { st0 with clear := true }
              match extract_beatleader_accuracy score_fields with
              | none => stc
              | some a =>
                match stc.best_acc with
                | none => { stc with best_acc := some a }
                | some best => if best < a then { stc with best_acc := some a } else stc
          some (setAssoc per lb_id st1)
  | _ => some per

/-- `collect_beatleader_star_stats` (collector/beatleader.py lines 526-684)
with the two cache-backed fetches factored out as inputs. -/
def collect_beatleader_star_stats (beatleader_id : String)
    (leaderboards scores : List JValue) : Option (List StarClearStat) :=
  if beatleader_id = "" then some []
  else if leaderboards.isEmpty then some []
  else
    match leaderboards.foldlM blCatalogStep ⟨[], []⟩ with
    | none => none
    | some cat =>
      if cat.star_map_count.isEmpty || cat.leaderboard_star_bucket.isEmpty then some []
      else
        match scores.foldlM (blScoreStep cat.leaderboard_star_bucket) [] with
        | none => none
        | some per => some (emitStats cat.star_map_count (tallyStates per))

/-- `_is_steam_id` (collector/collector.py lines 3-4): a 17-digit numeric
string. -/
def is_steam_id (s : String) : Bool :=
  s.toList.all Char.isDigit && s.toList.length ≠ 0 && s.toList.length = 17

/-- `fetch_player` (beatleader.py lines 26-70): network errors, 404 and JSON
errors yield `None` (`some none`), but the unguarded `float`/`int` coercions
of `pp`/`rank`/`countryRank` raise out of the function on malformed values
(`none`), contradicting the docstring's promise of `None` on errors. A
truthy non-dict JSON body likewise raises at `data.get`. -/
def fetch_bl_player (player_id : JValue) (net : NetResp) :
    Option (Option BeatLeaderPlayer) :=
  if !jTruthy player_id then some none
  else
    match net with
    | NetResp.exc => some none
    | NetResp.resp st body =>
      if st = 404 then some none
      else if 400 ≤ st then some none
      else
        match body with
        | none => some none
        | some data =>
          match data with
          | JValue.obj df =>
            let pid := pyStr (jOr (jGet df "id") player_id)
            let name := pyStr (jOr (jGet df "name") (JValue.str ""))
            let country := jOr (jGet df "country") JValue.null
            match pyFloat (jOr (jGet df "pp") (JValue.num 0)),
                pyInt (jOr (jGet df "rank") (JValue.num 0)),
                pyInt (jOr (jGet df "countryRank") (JValue.num 0)) with
            | some pp, some gr, some cr =>
              some (some ⟨JValue.str pid, JValue.str name, country, JValue.num pp,
                JValue.num (gr : ℚ), JValue.num (cr : ℚ), JValue.null⟩)
            | _, _, _ => none
          | _ => none

/-- How the resolution slice of snapshot assembly ends. -/
inductive SnapErr where
  | notFound : SnapErr
  | uncaught : SnapErr
deriving Repr, DecidableEq

/-- The player-resolution slice of `create_snapshot_for_steam_id`
(collector/collector.py lines 1147-1264): look the target up in the player
index; on a miss, try both direct fetches (only for Steam-style ids, each
wrapped in `try`), and raise the hard `RuntimeError` when both come back
empty (`SnapErr.notFound`). When the resolved entry has a ScoreSaber record
but no BeatLeader record, line 1257 calls `fetch_bl_player` with no
surrounding `try`, so a coercion raise escapes the whole assembly
(`SnapErr.uncaught`). `ssDirect` is the (internally exception-safe) result
of `_fetch_scoresaber_player_basic`; the index persist step does not affect
the outcome and is elided. -/
def snapshot_resolution (player_index : List (String × IndexEntry)) (steam_id : String)
    (ssDirect : Option ScoreSaberPlayer) (blDirectNet blSecondNet : NetResp) :
    Except SnapErr (Option ScoreSaberPlayer × Option BeatLeaderPlayer) :=
  let entry0 := player_index.lookup steam_id
  let entry : Option IndexEntry := match entry0 with
    | some e => if e.scoresaber.isNone && e.beatleader.isNone then none else some e
    | none => none
  let resolved : Except SnapErr IndexEntry := match entry with
    | some e => Except.ok e
    | none =>
      let ss := if is_steam_id steam_id then ssDirect else none
      let bl := if is_steam_id steam_id then
          match fetch_bl_player (JValue.str steam_id) blDirectNet with
          | some b => b
          | none => none
        else none
      if ss.isNone && bl.isNone then Except.error SnapErr.notFound
      else Except.ok ⟨ss, bl⟩
  match resolved with
  | Except.error e => Except.error e
  | Except.ok e =>
    let ss := e.scoresaber
    let scoresaber_id : JValue := match ss with
      | some p => p.id
      | none => JValue.null
    match e.beatleader with
    | some b => Except.ok (ss, some b)
    | none =>
      if jTruthy scoresaber_id then
        match fetch_bl_player scoresaber_id blSecondNet with
        | some b => Except.ok (ss, b)
        | none => Except.error SnapErr.uncaught
      else Except.ok (ss, none)

/-- One exchange of the BeatLeader ranking fetch: a read timeout, another
network-level error, or a response carrying a status, an optional
`Retry-After` header and the parsed body. -/
inductive RlResp where
  | timeout : RlResp
  | otherExc : RlResp
  | resp (status : Nat) (retryAfter : Option String) (body : Option JValue) : RlResp
deriving Repr

/-- The `Retry-After` sleep duration: the parsed header value, or the fixed
10-second fallback (beatleader.py lines 154-158). -/
def retryAfterSec (ra : Option String) : ℚ :=
  match ra with
  | none => 10
  | some h => (parsePyFloat h).getD 10

/-- Result of the per-page retry loop: the final response (`none` when the
loop ends with `resp = None`), the number of requests made, and the sleep
durations performed. -/
structure RetryOut where
  result : Option (Nat × Option JValue)
  requests : Nat
  sleeps : List ℚ
deriving Repr

/-- The inner retry loop of `fetch_players_ranking` (beatleader.py lines
125-182): a read timeout sleeps 5 seconds and retries until the shared
`retries` counter reaches 3; an HTTP 429 sleeps for `Retry-After` (or 10
seconds) and retries until the counter reaches 5; any other error, status
or a success ends the loop. `net k` is the response to the `k`-th request
for this page. -/
def blRetryLoop (net : Nat → RlResp) (attempt retries : Nat) : RetryOut :=
  match net attempt with
  | RlResp.timeout =>
    if h : 3 ≤ retries + 1 then ⟨none, 1, []⟩
    else
      let out := blRetryLoop net (attempt + 1) (retries + 1)
      ⟨out.result, out.requests + 1, 5 :: out.sleeps⟩
  | RlResp.otherExc => ⟨none, 1, []⟩
  | RlResp.resp st ra body =>
    if st = 429 then
      let w := retryAfterSec ra
      if h : 5 ≤ retries + 1 then ⟨some (429, body), 1, [w]⟩
      else
        let out := blRetryLoop net (attempt + 1) (retries + 1)
        ⟨out.result, out.requests + 1, w :: out.sleeps⟩
    else ⟨some (st, body), 1, []⟩
termination_by 5 - retries
decreasing_by
  · omega
  · omega

/-- One entry of the ranking-page parse loop (beatleader.py lines 200-220):
a non-dict entry raises (`none`), a failed `float`/`int` coercion skips the
entry, and entries below `min_pp` are filtered out locally. -/
def fprItem (min_pp : ℚ) (players : List BeatLeaderPlayer) (p : JValue) :
    Option (List BeatLeaderPlayer) :=
  match p with
  | JValue.obj pf =>
    match pyFloat (jGetD pf "pp" (JValue.num 0)) with
    | none => some players
    | some pp =>
      if 0 < min_pp ∧ pp < min_pp then some players
      else
        match pyInt (jGetD pf "rank" (JValue.num 0)),
            pyInt (jGetD pf "countryRank" (JValue.num 0)) with
        | some gr, some cr =>
          let rec_p : BeatLeaderPlayer :=
            ⟨JValue.str (pyStr (jGetD pf "id" (JValue.str ""))),
             JValue.str (pyStr (jGetD pf "name" (JValue.str ""))),
             jOr (jGet pf "country") JValue.null,
             JValue.num pp, JValue.num (gr : ℚ), JValue.num (cr : ℚ), JValue.null⟩
          some (players ++ [rec_p])
        | _, _ => some players
  | _ => none

/-- `float(items[-1].get("pp", 0.0) or 0.0)` with its broad fallback to 0
(beatleader.py lines 224-227); the caller guarantees the last item is a
dict. -/
def lastPpOf (items : List JValue) : ℚ :=
  match items.getLast? with
  | some (JValue.obj pf) => (pyFloat (jOr (jGetD pf "pp" (JValue.num 0)) (JValue.num 0))).getD 0
  | _ => 0

/-- Outcome of `fetch_players_ranking`: the accumulated players, one
`(page, requests)` pair per page attempted, all sleeps performed, and
whether the function ended by raising (malformed body shapes) rather than
returning. -/
structure RankingOut where
  players : List BeatLeaderPlayer
  pageRequests : List (Nat × Nat)
  sleeps : List ℚ
  raised : Bool
deriving Repr

/-- The page loop of `fetch_players_ranking` (beatleader.py lines 114-237).
`net page k` answers the `k`-th request for `page`. -/
def fprLoop (net : Nat → Nat → RlResp) (min_pp : ℚ) (page_size : Nat) :
    List Nat → List BeatLeaderPlayer → List (Nat × Nat) → List ℚ → RankingOut
  | [], players, reqs, sleeps => ⟨players, reqs, sleeps, false⟩
  | page :: rest, players, reqs, sleeps =>
    let out := blRetryLoop (net page) 0 0
    let reqs := reqs ++ [(page, out.requests)]
    let sleeps := sleeps ++ out.sleeps
    match out.result with
    | none => ⟨players, reqs, sleeps, false⟩
    | some (st, body) =>
      if st ≠ 200 then ⟨players, reqs, sleeps, false⟩
      else
        match body with
        | none => ⟨players, reqs, sleeps, false⟩
        | some data =>
          match data with
          | JValue.obj df =>
            match jOr (jGet df "data") (JValue.arr []) with
            | JValue.arr [] => ⟨players, reqs, sleeps, false⟩
            | JValue.arr items =>
              match items.foldlM (fprItem min_pp) players with
              | none => ⟨players, reqs, sleeps, true⟩
              | some players1 =>
                if 0 < min_pp ∧ lastPpOf items < min_pp then ⟨players1, reqs, sleeps, false⟩
                else if items.length < page_size then ⟨players1, reqs, sleeps, false⟩
                else fprLoop net min_pp page_size rest players1 reqs sleeps
            | _ => ⟨players, reqs, sleeps, true⟩
          | _ => ⟨players, reqs, sleeps, true⟩

/-- `fetch_players_ranking` (beatleader.py lines 73-239): paginate
`/players` in pp order over at most `max_pages` pages with the bounded
retry loop per page; gives up on a page after exhausting retries and
returns the players accumulated so far. -/
def fetch_players_ranking (net : Nat → Nat → RlResp) (min_pp : ℚ)
    (page_size max_pages : Nat) : RankingOut :=
  fprLoop net min_pp page_size ((List.range max_pages).map fun k => k + 1) [] [] []

/-- One entry of the AccSaber standings parse loop (accsaber.py lines
77-100): entries without a truthy `playerId` or with an unconvertible
`rank` are skipped. -/
def parseAccEntry (e : JValue) : Option AccPlayer :=
  match e with
  | JValue.obj f =>
    let pid := jGet f "playerId"
    if !jTruthy pid then none
    else
      match pyInt (jGetD f "rank" (JValue.num 0)) with
      | none => none
      | some rank =>
        some ⟨rank, pyStr (jGetD f "playerName" (JValue.str "")),
          pyStr (jGetD f "ap" (JValue.str "0")),
          pyStr (jGetD f "averageAcc" (JValue.str "")),
          pyStr (jGetD f "rankedPlays" (JValue.str "")),
          pyStr (jGetD f "averageApPerMap" (JValue.str "")),
          "", "", "", some (pyStr pid)⟩
  | _ => none

/-- `_filter_by_country` (accsaber.py lines 109-152): a second request to
the country endpoint, any failure yielding the empty list. -/
def filter_by_country (countryNet : NetResp) : List AccPlayer :=
  match countryNet with
  | NetResp.exc => []
  | NetResp.resp st body =>
    if 400 ≤ st then []
    else
      match body with
      | none => []
      | some (JValue.arr entries) => entries.filterMap parseAccEntry
      | some _ => []

/-- `_fetch_leaderboard` (accsaber.py lines 43-106) over the standings and
country-endpoint responses. The API returns the whole leaderboard at once,
so `page > 1` returns `[]` before any network access. The result pairs the
player list (`none` = the unguarded request/`raise_for_status` raised) with
the number of HTTP requests performed. -/
def fetch_leaderboard (standingsNet countryNet : NetResp) (country : Option String)
    (page : Int) : Option (List AccPlayer) × Nat :=
  if 1 < page then (some [], 0)
  else
    match standingsNet with
    | NetResp.exc => (none, 1)
    | NetResp.resp st body =>
      if 400 ≤ st then (none, 1)
      else
        match body with
        | none => (some [], 1)
        | some (JValue.arr entries) =>
          let players := entries.filterMap parseAccEntry
          match country with
          | some c =>
            if c ≠ "" then (some (filter_by_country countryNet), 2)
            else (some players, 1)
          | none => (some players, 1)
        | some _ => (some [], 1)

/-- `fetch_overall` (accsaber.py lines 155-162). -/
def fetch_overall (standingsNet countryNet : NetResp) (country : Option String)
    (page : Int) : Option (List AccPlayer) × Nat :=
  fetch_leaderboard standingsNet countryNet country page

/-- `fetch_true` (accsaber.py lines 165-172). -/
def fetch_true (standingsNet countryNet : NetResp) (country : Option String)
    (page : Int) : Option (List AccPlayer) × Nat :=
  fetch_leaderboard standingsNet countryNet country page

/-- `fetch_standard` (accsaber.py lines 175-182). -/
def fetch_standard (standingsNet countryNet : NetResp) (country : Option String)
    (page : Int) : Option (List AccPlayer) × Nat :=
  fetch_leaderboard standingsNet countryNet country page

/-- `fetch_tech` (accsaber.py lines 185-192). -/
def fetch_tech (standingsNet countryNet : NetResp) (country : Option String)
    (page : Int) : Option (List AccPlayer) × Nat :=
  fetch_leaderboard standingsNet countryNet country page

/-- A caller that paginates one category until an empty page or an
exception, as `_find_accsaber_skill_for_scoresaber_id`
(collector/accsaber.py lines 120-135) does; counts the fetch calls made. -/
def paginateUntilEmpty (fetch : Int → Option (List AccPlayer) × Nat) :
    Nat → Int → Nat
  | 0, _ => 0
  | fuel + 1, page =>
    match fetch page with
    | (none, _) => 1
    | (some [], _) => 1
    | (some (_ :: _), _) => 1 + paginateUntilEmpty fetch fuel (page + 1)

/-- The cached ScoreSaber global-ranking row used as the C1 failing input. -/
def aliceObj : JValue := JValue.obj [("id", JValue.str "76561198000000001"),
  ("name", JValue.str "Alice"), ("country", JValue.str "jp"), ("pp", JValue.num 5000),
  ("global_rank", JValue.num 10), ("country_rank", JValue.num 1)]

/-- The dataclass record the loader builds from `aliceObj`. -/
def aliceRec : ScoreSaberPlayer :=
  ⟨JValue.str "76561198000000001", JValue.str "Alice", JValue.str "jp",
   JValue.num 5000, JValue.num 10, JValue.num 1, JValue.null⟩

/-- C1 failing input: both global ranking caches populated, no player
index on disk. -/
def c1State : CacheState :=
  ⟨some (JValue.arr [aliceObj]), some (JValue.arr []), none⟩

/-- A test AccSaber player with the given id and Overall AP text. -/
def c2Player (sid ap : String) : AccPlayer :=
  ⟨1, "", ap, "", "", "", "", "", "", some sid⟩

/-- The spec's tie-break example pool: A and B tied at 100, C at 50. -/
def c2Pool : List AccPlayer :=
  [c2Player "A" "100", c2Player "B" "100", c2Player "C" "50"]

/-- C4 failing input, catalog side: one ranked chart `A` at 4 stars. -/
def c4SsCatalog : List JValue :=
  [JValue.obj [("id", JValue.str "A"), ("stars", JValue.num 4), ("ranked", JValue.bool true)]]

/-- C4 failing input, play side: a modifier-free play of chart `B`, which is
absent from the catalog, reporting 4 stars itself. -/
def c4SsScores : List JValue :=
  [JValue.obj [("leaderboard", JValue.obj [("id", JValue.str "B"), ("stars", JValue.num 4),
      ("ranked", JValue.bool true)]),
    ("score", JValue.obj [("modifiers", JValue.str "")])]]

/-- The analogous BeatLeader catalog: chart `A`, status 3, 4 stars. -/
def c4BlCatalog : List JValue :=
  [JValue.obj [("id", JValue.str "A"),
    ("difficulty", JValue.obj [("status", JValue.num 3), ("stars", JValue.num 4)])]]

/-- The analogous BeatLeader play of the uncatalogued chart `B`. -/
def c4BlScores : List JValue :=
  [JValue.obj [("leaderboard", JValue.obj [("id", JValue.str "B")]),
    ("score", JValue.obj [("modifiers", JValue.str "")])]]

/-- A hand-crafted old-format snapshot JSON: the star-stat object lacks the
`ss_count` key (and `average_acc`), as saved by a release predating the
slow-song counter. -/
def c6OldJson : JValue :=
  JValue.obj
    [("taken_at", JValue.str "2024-01-01T00:00:00Z"),
     ("steam_id", JValue.str "76561198000000001"),
     ("scoresaber_id", JValue.str "76561198000000001"),
     ("scoresaber_name", JValue.str "Alice"),
     ("scoresaber_country", JValue.str "JP"),
     ("scoresaber_pp", JValue.num 5000),
     ("scoresaber_rank_global", JValue.num 10),
     ("scoresaber_rank_country", JValue.num 1),
     ("scoresaber_average_ranked_acc", JValue.null),
     ("scoresaber_total_play_count", JValue.null),
     ("scoresaber_ranked_play_count", JValue.null),
     ("beatleader_id", JValue.null),
     ("beatleader_name", JValue.null),
     ("beatleader_country", JValue.null),
     ("beatleader_pp", JValue.null),
     ("beatleader_rank_global", JValue.null),
     ("beatleader_rank_country", JValue.null),
     ("star_stats", JValue.arr
       [JValue.obj [("star", JValue.num 4), ("map_count", JValue.num 10),
         ("clear_count", JValue.num 5), ("nf_count", JValue.num 1),
         ("clear_rate", JValue.num (1/2))]])]

/-- The star stat `Snapshot.load` is expected to build from `c6OldJson`:
`ss_count` defaulted to 0, the other missing optional fields defaulted by
the dataclass. -/
def c6LoadedStat : PyStarStat :=
  ⟨JValue.num 4, JValue.num 10, JValue.num 5, JValue.num 1,
   JValue.num 0, JValue.num (1/2), JValue.null⟩

/-- C7 failing input: the target is resolved through the player index (a
ScoreSaber record only, no BeatLeader record). -/
def c7Index : List (String × IndexEntry) :=
  [("76561198000000001", ⟨some aliceRec, none⟩)]

/-- C7 failing input: the direct BeatLeader profile fetch answers HTTP 200
with a malformed body whose `pp` is the non-numeric string "abc", so
`float(data.get("pp") or 0.0)` raises `ValueError`. -/
def c7BadBlResp : NetResp :=
  NetResp.resp 200 (some (JValue.obj [("pp", JValue.str "abc")]))

/-- A cached ranked chart used by the C5 witnesses. -/
def c5Chart : JValue := JValue.obj [("id", JValue.num 1), ("stars", JValue.num 4)]

/-- C5 witness: a ScoreSaber ranked-maps cache holding one chart. -/
def c5SsCache : Option JValue :=
  some (JValue.obj [("leaderboards", JValue.arr [c5Chart])])

/-- C5 witness: the fresh page-1 response reports the same total (1). -/
def c5SsNet : Nat → NetResp := fun _ =>
  NetResp.resp 200 (some (JValue.obj [("metadata",
    JValue.obj [("total", JValue.num 1), ("itemsPerPage", JValue.num 100)])]))

/-- C5 witness: a BeatLeader ranked-maps page cache (one `type=Ranked` page
holding one chart, metadata total 1). -/
def c5BlCache : Option JValue :=
  some (JValue.obj [("pages", JValue.arr
    [JValue.obj [("page", JValue.num 1),
      ("params", JValue.obj [("type", JValue.str "Ranked")]),
      ("data", JValue.obj [("metadata", JValue.obj [("total", JValue.num 1)]),
        ("data", JValue.arr [c5Chart])])]])])

/-- C5 witness: the fresh BeatLeader page-1 response, same total. -/
def c5BlNet : List NetResp :=
  [NetResp.resp 200 (some (JValue.obj [("metadata",
    JValue.obj [("total", JValue.num 1)])]))]

/-- C9 witness data: a full page-1 body of two ranking entries. -/
def c9Items : List JValue :=
  [JValue.obj [("id", JValue.str "p1"), ("name", JValue.str "A"), ("country", JValue.str "JP"),
     ("pp", JValue.num 100), ("rank", JValue.num 1), ("countryRank", JValue.num 1)],
   JValue.obj [("id", JValue.str "p2"), ("name", JValue.str "B"), ("country", JValue.str "JP"),
     ("pp", JValue.num 90), ("rank", JValue.num 2), ("countryRank", JValue.num 2)]]

/-- C9 witness network: page 1 answers 200 with the two entries, every
other page answers HTTP 429 on every attempt (no `Retry-After` header). -/
def c9Net (page : Nat) (_k : Nat) : RlResp :=
  if page = 1 then RlResp.resp 200 none (some (JValue.obj [("data", JValue.arr c9Items)]))
  else RlResp.resp 429 none none

/-- The player parsed from the first C9 entry. -/
def c9Player1 : BeatLeaderPlayer :=
  ⟨JValue.str "p1", JValue.str "A", JValue.str "JP", JValue.num 100,
   JValue.num 1, JValue.num 1, JValue.null⟩

/-- The player parsed from the second C9 entry. -/
def c9Player2 : BeatLeaderPlayer :=
  ⟨JValue.str "p2", JValue.str "B", JValue.str "JP", JValue.num 90,
   JValue.num 2, JValue.num 2, JValue.null⟩

/-!
Theorems. Each claim of the specification gets exactly one theorem below,
preceded by supporting lemmas where needed.
-/

theorem mem_insertDescBy (key : α → ℚ) (x a : α) (l : List α) :
    a ∈ insertDescBy key x l ↔ a = x ∨ a ∈ l := by
  induction l with
  | nil => simp [insertDescBy]
  | cons y ys ih =>
    simp only [insertDescBy]
    by_cases h : key x ≤ key y
    · rw [if_pos h]
      simp only [List.mem_cons, ih]
      tauto
    · rw [if_neg h]
      simp only [List.mem_cons]

theorem mem_sortFold (key : α → ℚ) (l : List α) (acc : List α) (a : α) :
    a ∈ l.foldl (fun acc x => insertDescBy key x acc) acc ↔ a ∈ acc ∨ a ∈ l := by
  induction l generalizing acc with
  | nil => simp
  | cons x xs ih =>
    simp only [List.foldl_cons, ih, mem_insertDescBy, List.mem_cons]
    tauto

theorem mem_pySortDescBy (key : α → ℚ) (l : List α) (a : α) :
    a ∈ pySortDescBy key l ↔ a ∈ l := by
  simp [pySortDescBy, mem_sortFold]

theorem rankWalk_none (target : String) (l : List AccPlayer)
    (h : ∀ p ∈ l, strOfSid p.scoresaber_id ≠ target) (n : Nat) :
    rankWalk target l n = none := by
  induction l generalizing n with
  | nil => rfl
  | cons p rest ih =>
    simp only [rankWalk]
    rw [if_neg (h p (List.mem_cons_self p rest))]
    exact ih (fun q hq => h q (List.mem_cons_of_mem p hq)) (n + 1)

theorem rankWalk_ge (target : String) (l : List AccPlayer) (n r : Nat)
    (h : rankWalk target l n = some r) : n ≤ r := by
  induction l generalizing n with
  | nil => simp [rankWalk] at h
  | cons p rest ih =>
    simp only [rankWalk] at h
    by_cases hp : strOfSid p.scoresaber_id = target
    · rw [if_pos hp] at h
      exact le_of_eq (Option.some.inj h)
    · rw [if_neg hp] at h
      have := ih (n + 1) h
      omega

/-- C1: Rebuilding the player identity index from the cached global rankings
is claimed to produce and persist the unified index with name+country
fallback linking. The code of `rebuild_player_index_from_global` stops after
building the name map: for every cache state the function leaves the state
(including `players_index.json`) untouched and its local `index` empty, and
on the concrete failing input with populated ranking caches it returns with
no index entry and no write, contradicting its own docstring. -/
theorem c1_rebuild_index_incomplete :
    (∀ (st : CacheState)
      (out : CacheState × List (String × IndexEntry)
        × List ((String × String) × List ScoreSaberPlayer)),
      rebuild_player_index_from_global st = some out →
      out.fst = st ∧ out.snd.fst = [])
    ∧ rebuild_player_index_from_global c1State
        = some (c1State, [], [(("alice", "JP"), [aliceRec])]) := by
  constructor
  · intro st out h
    simp only [rebuild_player_index_from_global] at h
    cases hb : buildNameCountry (load_list_cache mkScoreSaberPlayer st.scoresaber_ranking) with
    | none => rw [hb] at h; cases h
    | some m =>
      rw [hb] at h
      cases h
      exact ⟨rfl, rfl⟩
  · rfl

/-- Closed instance of the universal part of the C1 theorem at the concrete
failing input. -/
theorem c1_rebuild_index_incomplete_witness :
    ((c1State, ([] : List (String × IndexEntry)),
        [(("alice", "JP"), [aliceRec])]).fst = c1State
      ∧ (c1State, ([] : List (String × IndexEntry)),
        [(("alice", "JP"), [aliceRec])]).snd.fst = []) :=
  c1_rebuild_index_incomplete.1 c1State _ c1_rebuild_index_incomplete.2

/-- C2: rank computation filters by the minimum AP threshold (and the pool
is pre-filtered to the target country), sorts descending with the stable
first-seen tie-break, and assigns dense ranks from 1; the spec example
[(A,100),(B,100),(C,50)] yields A:1, B:2, C:3; a player below the threshold
or absent receives `none`, and a returned rank is never 0. -/
theorem c2_rank_computation :
    (rank_for c2Pool (fun p => p.total_ap) "A" = some 1
      ∧ rank_for c2Pool (fun p => p.total_ap) "B" = some 2
      ∧ rank_for c2Pool (fun p => p.total_ap) "C" = some 3)
    ∧ (∀ (pool : List AccPlayer) (get_ap : AccPlayer → String) (target : String),
        (∀ p ∈ pool, parse_ap (get_ap p) < ACCSABER_MIN_AP_SKILL
          ∨ strOfSid p.scoresaber_id ≠ target) →
        rank_for pool get_ap target = none)
    ∧ (∀ (pool : List AccPlayer) (get_ap : AccPlayer → String) (target : String) (r : Nat),
        rank_for pool get_ap target = some r → 1 ≤ r)
    ∧ (∀ (acc_players : List AccPlayer) (m : List (String × String)) (c : String)
        (p : AccPlayer), p ∈ same_country_players acc_players m c →
        ∃ sid, p.scoresaber_id = some sid ∧ sid ≠ "" ∧ m.lookup sid = some c) := by
  refine ⟨⟨by decide, by decide, by decide⟩, ?_, ?_, ?_⟩
  · intro pool g t h
    simp only [rank_for]
    split_ifs with he
    · rfl
    · apply rankWalk_none
      intro p hp
      rw [mem_pySortDescBy] at hp
      have hmem := List.mem_filter.mp hp
      have hthr : ACCSABER_MIN_AP_SKILL ≤ parse_ap (g p) := by
        simpa using hmem.2
      rcases h p hmem.1 with hlt | hne
      · exact absurd hthr (not_le.mpr hlt)
      · exact hne
  · intro pool g t r hr
    simp only [rank_for] at hr
    split_ifs at hr with he
    exact rankWalk_ge _ _ _ _ hr
  · intro l m c p hp
    have hmem := List.mem_filter.mp hp
    rcases hmem with ⟨_, hpred⟩
    cases hsid : p.scoresaber_id with
    | none => rw [hsid] at hpred; simp at hpred
    | some sid =>
      rw [hsid] at hpred
      dsimp only at hpred
      cases hlook : m.lookup sid with
      | none => rw [hlook] at hpred; simp at hpred
      | some cc =>
        rw [hlook] at hpred
        simp only [Bool.and_eq_true, decide_eq_true_eq] at hpred
        refine ⟨sid, rfl, by simpa using hpred.1, ?_⟩
        rw [hlook, hpred.2]

/-- Closed instance of the C2 theorem: a pool whose only entry has negative
parsed AP (below the threshold 0) gets no rank. -/
theorem c2_rank_computation_witness :
    (∀ p ∈ [c2Player "Z" "-5"], parse_ap p.total_ap < ACCSABER_MIN_AP_SKILL
      ∨ strOfSid p.scoresaber_id ≠ "Z")
    ∧ rank_for [c2Player "Z" "-5"] (fun p => p.total_ap) "Z" = none :=
  ⟨by decide, c2_rank_computation.2.1 [c2Player "Z" "-5"] (fun p => p.total_ap) "Z"
    (by decide)⟩

theorem accDirect_eval (q : ℚ) :
    accDirect (JValue.num q) =
      if 0 < q then
        if q ≤ 1 then some (some (q * 100))
        else if q ≤ 100 then some (some q)
        else if q ≤ 10000 then some (some (q / 100))
        else some none
      else some none := by
  have e1 : (JValue.num q).isNull = false := rfl
  have e2 : pyFloat (JValue.num q) = some q := rfl
  simp only [accDirect, e1, Bool.false_eq_true, if_false, e2]
  by_cases h : q ≤ 0
  · have hn : ¬ (0 : ℚ) < q := not_lt.mpr h
    rw [if_pos h, if_neg (lt_irrefl (0 : ℚ)), if_neg hn]
  · have h0 : 0 < q := not_le.mp h
    rw [if_neg h, if_pos h0]

theorem extract_ss_direct (sf : List (String × JValue)) (q : ℚ)
    (h : jGet sf "accuracy" = JValue.num q) (h0 : 0 < q) :
    extract_scoresaber_accuracy sf =
      if q ≤ 1 then some (q * 100)
      else if q ≤ 100 then some q
      else if q ≤ 10000 then some (q / 100)
      else
        accFromBaseMax
          (if (jGet sf "baseScore").isNull then jGet sf "score" else jGet sf "baseScore")
          (jGet sf "maxScore") := by
  have e1 : (JValue.num q).isNull = false := rfl
  simp only [extract_scoresaber_accuracy, h, e1, Bool.false_eq_true, if_false,
    accDirect_eval, if_pos h0]
  by_cases h1 : q ≤ 1
  · rw [if_pos h1, if_pos h1]
  · by_cases h2 : q ≤ 100
    · rw [if_neg h1, if_pos h2, if_neg h1, if_pos h2]
    · by_cases h3 : q ≤ 10000
      · rw [if_neg h1, if_neg h2, if_pos h3, if_neg h1, if_neg h2, if_pos h3]
      · rw [if_neg h1, if_neg h2, if_neg h3, if_neg h1, if_neg h2, if_neg h3]

theorem extract_bl_direct (sf : List (String × JValue)) (q : ℚ)
    (h : jGet sf "accuracy" = JValue.num q) (h0 : 0 < q) :
    extract_beatleader_accuracy sf =
      if q ≤ 1 then some (q * 100)
      else if q ≤ 100 then some q
      else if q ≤ 10000 then some (q / 100)
      else
        accFromBaseMax
          (if (jGet sf "baseScore").isNull then jGet sf "modifiedScore"
           else jGet sf "baseScore")
          (jGet sf "maxScore") := by
  have e1 : (JValue.num q).isNull = false := rfl
  simp only [extract_beatleader_accuracy, h, e1, Bool.false_eq_true, if_false,
    accDirect_eval, if_pos h0]
  by_cases h1 : q ≤ 1
  · rw [if_pos h1, if_pos h1]
  · by_cases h2 : q ≤ 100
    · rw [if_neg h1, if_pos h2, if_neg h1, if_pos h2]
    · by_cases h3 : q ≤ 10000
      · rw [if_neg h1, if_neg h2, if_pos h3, if_neg h1, if_neg h2, if_pos h3]
      · rw [if_neg h1, if_neg h2, if_neg h3, if_neg h1, if_neg h2, if_neg h3]

theorem extract_ss_fallback (sf : List (String × JValue))
    (ha : jGet sf "accuracy" = JValue.null) (hb : jGet sf "acc" = JValue.null) :
    extract_scoresaber_accuracy sf =
      accFromBaseMax
        (if (jGet sf "baseScore").isNull then jGet sf "score" else jGet sf "baseScore")
        (jGet sf "maxScore") := by
  have e1 : (JValue.null).isNull = true := rfl
  have e2 : accDirect JValue.null = some none := rfl
  simp only [extract_scoresaber_accuracy, ha, e1, if_true, hb, e2]

theorem extract_bl_fallback (sf : List (String × JValue))
    (ha : jGet sf "accuracy" = JValue.null) (hb : jGet sf "acc" = JValue.null) :
    extract_beatleader_accuracy sf =
      accFromBaseMax
        (if (jGet sf "baseScore").isNull then jGet sf "modifiedScore"
         else jGet sf "baseScore")
        (jGet sf "maxScore") := by
  have e1 : (JValue.null).isNull = true := rfl
  have e2 : accDirect JValue.null = some none := rfl
  simp only [extract_beatleader_accuracy, ha, e1, if_true, hb, e2]

theorem accFromBaseMax_num (b m : ℚ) (hm : 0 < m) :
    accFromBaseMax (JValue.num b) (JValue.num m) = some (max 0 (min 100 (b / m * 100))) := by
  simp only [accFromBaseMax, pyFloat, JValue.isNull]
  rw [if_neg (not_le.mpr hm)]
  rfl

/-- C3 (amended): the normalization maps a direct accuracy v to v*100 when
0 < v <= 1, keeps it when 1 < v <= 100, divides by 100 when
100 < v <= 10000 (0.95, 95 and 9500 all map to 95); a non-positive direct
value is rejected like the out-of-range case and the extractor falls back
to base/max clamped to [0,100]; with neither source available the result is
absent, not zero. Both extractors agree. -/
theorem c3_accuracy_normalization :
    (∀ (sf : List (String × JValue)) (q : ℚ),
      jGet sf "accuracy" = JValue.num q → 0 < q →
      ((q ≤ 1 → extract_scoresaber_accuracy sf = some (q * 100)
          ∧ extract_beatleader_accuracy sf = some (q * 100))
        ∧ (1 < q → q ≤ 100 → extract_scoresaber_accuracy sf = some q
          ∧ extract_beatleader_accuracy sf = some q)
        ∧ (100 < q → q ≤ 10000 → extract_scoresaber_accuracy sf = some (q / 100)
          ∧ extract_beatleader_accuracy sf = some (q / 100))))
    ∧ (∀ (sf : List (String × JValue)) (b m : ℚ),
        jGet sf "accuracy" = JValue.null → jGet sf "acc" = JValue.null →
        jGet sf "baseScore" = JValue.num b → jGet sf "maxScore" = JValue.num m → 0 < m →
        extract_scoresaber_accuracy sf = some (max 0 (min 100 (b / m * 100)))
          ∧ extract_beatleader_accuracy sf = some (max 0 (min 100 (b / m * 100))))
    ∧ (extract_scoresaber_accuracy [] = none ∧ extract_beatleader_accuracy [] = none)
    ∧ (extract_scoresaber_accuracy [("accuracy", JValue.num (19/20))] = some 95
      ∧ extract_scoresaber_accuracy [("accuracy", JValue.num 95)] = some 95
      ∧ extract_scoresaber_accuracy [("accuracy", JValue.num 9500)] = some 95) := by
  refine ⟨?_, ?_, ⟨rfl, rfl⟩, ?_⟩
  · intro sf q h h0
    refine ⟨fun h1 => ?_, fun h1 h2 => ?_, fun h1 h2 => ?_⟩
    · constructor
      · rw [extract_ss_direct sf q h h0, if_pos h1]
      · rw [extract_bl_direct sf q h h0, if_pos h1]
    · constructor
      · rw [extract_ss_direct sf q h h0, if_neg (not_le.mpr h1), if_pos h2]
      · rw [extract_bl_direct sf q h h0, if_neg (not_le.mpr h1), if_pos h2]
    · constructor
      · rw [extract_ss_direct sf q h h0, if_neg (show ¬ q ≤ 1 by linarith),
          if_neg (not_le.mpr h1), if_pos h2]
      · rw [extract_bl_direct sf q h h0, if_neg (show ¬ q ≤ 1 by linarith),
          if_neg (not_le.mpr h1), if_pos h2]
  · intro sf b m ha hacc hbase hmax hm
    constructor
    · rw [extract_ss_fallback sf ha hacc, hbase, hmax]
      simp only [JValue.isNull]
      exact accFromBaseMax_num b m hm
    · rw [extract_bl_fallback sf ha hacc, hbase, hmax]
      simp only [JValue.isNull]
      exact accFromBaseMax_num b m hm
  · refine ⟨?_, ?_, ?_⟩
    · rw [extract_ss_direct [("accuracy", JValue.num (19/20))] (19/20) rfl (by norm_num),
        if_pos (show (19:ℚ)/20 ≤ 1 by norm_num)]
      norm_num
    · rw [extract_ss_direct [("accuracy", JValue.num 95)] 95 rfl (by norm_num),
        if_neg (show ¬ (95:ℚ) ≤ 1 by norm_num), if_pos (show (95:ℚ) ≤ 100 by norm_num)]
    · rw [extract_ss_direct [("accuracy", JValue.num 9500)] 9500 rfl (by norm_num),
        if_neg (show ¬ (9500:ℚ) ≤ 1 by norm_num),
        if_neg (show ¬ (9500:ℚ) ≤ 100 by norm_num),
        if_pos (show (9500:ℚ) ≤ 10000 by norm_num)]
      norm_num

/-- Closed instance of the C3 theorem at v = 19/20 = 0.95. -/
theorem c3_accuracy_normalization_witness :
    jGet [("accuracy", JValue.num (19/20))] "accuracy" = JValue.num (19/20)
    ∧ (0 : ℚ) < 19/20 ∧ (19:ℚ)/20 ≤ 1
    ∧ extract_scoresaber_accuracy [("accuracy", JValue.num (19/20))]
        = some ((19/20) * 100) :=
  ⟨rfl, by norm_num, by norm_num,
    ((c3_accuracy_normalization.1 [("accuracy", JValue.num (19/20))] (19/20) rfl
      (by norm_num)).1 (by norm_num)).1⟩

/-- C3 counterexample to the claim as stated: a raw accuracy of 0 lies in the
claimed "v <= 1.0, multiply by 100" range, yet the extractor rejects it and
(with no base/max fallback available) returns `none` instead of 0*100. -/
theorem c3_accuracy_zero_counterexample :
    (0 : ℚ) ≤ 1
    ∧ extract_scoresaber_accuracy [("accuracy", JValue.num 0)] = none
    ∧ extract_scoresaber_accuracy [("accuracy", JValue.num 0)] ≠ some ((0 : ℚ) * 100)
    ∧ extract_beatleader_accuracy [("accuracy", JValue.num 0)] = none := by
  refine ⟨by norm_num, rfl, ?_, rfl⟩
  intro hc
  exact Option.noConfusion ((rfl : extract_scoresaber_accuracy
    [("accuracy", JValue.num 0)] = none) ▸ hc)

/-- C8: an accuracy of 150.0 is not rejected: it falls in the (100, 10000]
branch and is rescaled to 1.5 by the division by 100, even when base/max
data is available for a fallback — the code contradicts its own docstring,
which promises recomputation from `maxScore`/`baseScore` for out-of-range
values. -/
theorem c8_out_of_range_rescaled :
    extract_scoresaber_accuracy [("accuracy", JValue.num 150)] = some (3 / 2)
    ∧ extract_beatleader_accuracy [("accuracy", JValue.num 150)] = some (3 / 2)
    ∧ extract_scoresaber_accuracy [("accuracy", JValue.num 150),
        ("baseScore", JValue.num 90), ("maxScore", JValue.num 100)] = some (3 / 2) := by
  refine ⟨?_, ?_, ?_⟩
  · rw [extract_ss_direct [("accuracy", JValue.num 150)] 150 rfl (by norm_num),
      if_neg (show ¬ (150:ℚ) ≤ 1 by norm_num),
      if_neg (show ¬ (150:ℚ) ≤ 100 by norm_num),
      if_pos (show (150:ℚ) ≤ 10000 by norm_num)]
    norm_num
  · rw [extract_bl_direct [("accuracy", JValue.num 150)] 150 rfl (by norm_num),
      if_neg (show ¬ (150:ℚ) ≤ 1 by norm_num),
      if_neg (show ¬ (150:ℚ) ≤ 100 by norm_num),
      if_pos (show (150:ℚ) ≤ 10000 by norm_num)]
    norm_num
  · rw [extract_ss_direct [("accuracy", JValue.num 150),
        ("baseScore", JValue.num 90), ("maxScore", JValue.num 100)] 150 rfl (by norm_num),
      if_neg (show ¬ (150:ℚ) ≤ 1 by norm_num),
      if_neg (show ¬ (150:ℚ) ≤ 100 by norm_num),
      if_pos (show (150:ℚ) ≤ 10000 by norm_num)]
    norm_num

/-- C4: the spec says a play referencing a chart absent from the current
ranked catalog is ignored by both aggregators. The BeatLeader aggregator
does skip it (no tier gets any count), but the ScoreSaber aggregator's
catalog-membership check is commented out: the same play of the
uncatalogued chart B is classified by its own `stars` field and counted as
a clear in tier 4. -/
theorem c4_uncatalogued_play_counted :
    collect_star_stats_from_scoresaber "76561198000000001" c4SsCatalog c4SsScores
      = some [⟨4, 1, 1, 0, 0, 1, none⟩]
    ∧ collect_beatleader_star_stats "7656" c4BlCatalog c4BlScores
      = some [⟨4, 1, 0, 0, 0, 0, none⟩] := by
  constructor
  · have h : collect_star_stats_from_scoresaber "76561198000000001" c4SsCatalog c4SsScores
        = some [⟨4, 1, 1, 0, 0, (1 : ℚ) / (1 : ℚ), none⟩] := rfl
    rw [h]
    norm_num
  · have h : collect_beatleader_star_stats "7656" c4BlCatalog c4BlScores
        = some [⟨4, 1, 0, 0, 0, (0 : ℚ) / (1 : ℚ), none⟩] := rfl
    rw [h]
    norm_num

theorem ssConvertItem_rt (st : PyStarStat) :
    ssConvertItem (starStatToJson st) = some (some st) := rfl

theorem blConvertItem_rt (st : PyStarStat) :
    blConvertItem (starStatToJson st) = some (some st) := rfl

theorem jOr_arr (xs : List JValue) : jOr (JValue.arr xs) (JValue.arr []) = JValue.arr xs := by
  cases xs <;> simp [jOr, jTruthy]

theorem convFold_rt (conv : JValue → Option (Option PyStarStat))
    (hconv : ∀ st : PyStarStat, conv (starStatToJson st) = some (some st))
    (stats acc : List PyStarStat) :
    (stats.map starStatToJson).foldlM (fun a s => (conv s).map fun r => a ++ r.toList) acc
      = some (acc ++ stats) := by
  induction stats generalizing acc with
  | nil => simp
  | cons st rest ih =>
    rw [List.map_cons, List.foldlM_cons, hconv st]
    show (rest.map starStatToJson).foldlM
        (fun a s => (conv s).map fun r => a ++ r.toList) (acc ++ [st])
      = some (acc ++ st :: rest)
    rw [ih]
    simp

theorem convertList_rt (conv : JValue → Option (Option PyStarStat))
    (hconv : ∀ st : PyStarStat, conv (starStatToJson st) = some (some st))
    (stats : List PyStarStat) :
    convertList conv (JValue.arr (stats.map starStatToJson)) = some stats := by
  simp [convertList, convFold_rt conv hconv stats []]

theorem jGet_saveFields_ss (s : PySnapshot) :
    jGet (saveFields s) "star_stats" = JValue.arr (s.star_stats.map starStatToJson) := rfl

theorem jGet_saveFields_bl (s : PySnapshot) :
    jGet (saveFields s) "beatleader_star_stats"
      = JValue.arr (s.beatleader_star_stats.map starStatToJson) := rfl

theorem fromFields_save (s : PySnapshot) :
    snapshotFromFields (saveFields s) s.star_stats s.beatleader_star_stats = some s := rfl

/-- C6: `Snapshot.load` accepts an old-format snapshot whose star-stat
objects lack `ss_count`, defaulting it to 0 (the concrete old-format file
loads with `ss_count = 0` and every other field preserved), and for every
snapshot object the save/load round-trip is the identity — in particular
every snapshot produced by `load` saves and reloads to an equal snapshot. -/
theorem c6_snapshot_backcompat_roundtrip :
    ((snapshot_load c6OldJson).map (fun s => s.star_stats) = some [c6LoadedStat])
    ∧ (∀ s : PySnapshot, snapshot_load (snapshot_save s) = some s) := by
  constructor
  · rfl
  · intro s
    have h : snapshot_load (JValue.obj (saveFields s)) = some s := by
      rw [snapshot_load]
      rw [jGet_saveFields_ss, jGet_saveFields_bl, jOr_arr, jOr_arr,
        convertList_rt ssConvertItem ssConvertItem_rt,
        convertList_rt blConvertItem blConvertItem_rt]
      exact fromFields_save s
    exact h

/-- C7: the claim says snapshot assembly hard-fails if and only if the
target resolves in no service. The "if" direction holds (an unresolvable
target raises the RuntimeError), and with an error-free BeatLeader fetch
the resolved assembly proceeds; but the "only if" direction fails: the same
resolved player (ScoreSaber record in the index, no BeatLeader record)
aborts the whole assembly when the unguarded `fetch_bl_player` call at
collector.py line 1257 meets an HTTP 200 body with a non-numeric `pp`,
because `fetch_player` raises `ValueError` despite its docstring promising
`None` on errors. -/
theorem c7_resolution_failure_not_only_hard_failure :
    snapshot_resolution c7Index "76561198000000001" none NetResp.exc c7BadBlResp
      = Except.error SnapErr.uncaught
    ∧ snapshot_resolution c7Index "76561198000000001" none NetResp.exc NetResp.exc
      = Except.ok (some aliceRec, none)
    ∧ snapshot_resolution [] "no-such-player" none NetResp.exc NetResp.exc
      = Except.error SnapErr.notFound :=
  ⟨rfl, rfl, rfl⟩

/-- C10: every AccSaber category fetch returns the empty list for any page
beyond 1 without performing a single network request, so a caller that
paginates until an empty page makes at most two fetch calls per category. -/
theorem c10_accsaber_single_page :
    (∀ (sn cn : NetResp) (c : Option String) (p : Int), 1 < p →
      fetch_overall sn cn c p = (some [], 0)
      ∧ fetch_true sn cn c p = (some [], 0)
      ∧ fetch_standard sn cn c p = (some [], 0)
      ∧ fetch_tech sn cn c p = (some [], 0))
    ∧ (∀ (sn cn : NetResp) (c : Option String) (fuel : Nat),
        paginateUntilEmpty (fun p => fetch_overall sn cn c p) (fuel + 1) 1 ≤ 2) := by
  have hpage : ∀ (sn cn : NetResp) (c : Option String) (p : Int), 1 < p →
      fetch_leaderboard sn cn c p = (some [], 0) := by
    intro sn cn c p hp
    simp only [fetch_leaderboard, if_pos hp]
  constructor
  · intro sn cn c p hp
    exact ⟨hpage sn cn c p hp, hpage sn cn c p hp, hpage sn cn c p hp, hpage sn cn c p hp⟩
  · intro sn cn c fuel
    have step : ∀ (f : Nat),
        paginateUntilEmpty (fun p => fetch_overall sn cn c p) f 2 ≤ 1 := by
      intro f
      cases f with
      | zero => simp [paginateUntilEmpty]
      | succ g =>
        have h2 : fetch_overall sn cn c 2 = (some [], 0) :=
          hpage sn cn c 2 (by norm_num)
        simp only [paginateUntilEmpty, h2]
        exact le_refl 1
    simp only [paginateUntilEmpty]
    rcases hf : fetch_overall sn cn c 1 with ⟨r, n⟩
    cases r with
    | none => simp [hf]
    | some l =>
      cases l with
      | nil => simp [hf]
      | cons x xs =>
        have hs := step fuel
        have h21 : (1 : Int) + 1 = 2 := by norm_num
        simp only [hf]
        rw [h21]
        omega

/-- Closed instance of the C10 theorem at page 2 and one pagination run. -/
theorem c10_accsaber_single_page_witness :
    (1 : Int) < 2
    ∧ fetch_overall NetResp.exc NetResp.exc none 2 = (some [], 0)
    ∧ paginateUntilEmpty (fun p => fetch_overall NetResp.exc NetResp.exc none p) 3 1 ≤ 2 :=
  ⟨by norm_num, (c10_accsaber_single_page.1 NetResp.exc NetResp.exc none 2 (by norm_num)).1,
    c10_accsaber_single_page.2 NetResp.exc NetResp.exc none 2⟩

/-- C5: for both ranked-catalog caches, when a (valid) cache exists the
refresher fetches exactly one fresh page — page 1 — compares the reported
total against the cached total, and when the new total is not greater it
returns the cached chart list as-is with no further requests (the request
log is exactly `[1]`). -/
theorem c5_cache_freshness_short_circuit :
    (∀ (cache : Option JValue) (net : Nat → NetResp)
      (ex : List (JValue × JValue)) (lbs : List JValue)
      (df mf : List (String × JValue)) (t pp0 : Int),
      dedupCached ((loadCachedRankMaps cache).getD []) = some (ex, lbs) →
      net 1 = NetResp.resp 200 (some (JValue.obj df)) →
      jOr (jGet df "metadata") (JValue.obj []) = JValue.obj mf →
      pyInt (jGetD mf "total" (JValue.num 0)) = some t →
      pyInt (jGetD mf "itemsPerPage" (JValue.num 0)) = some pp0 →
      t ≤ lbs.length →
      ssGetLeaderboardsRanked cache net = some (lbs, [1]))
    ∧ (∀ (cache : Option JValue) (net : List NetResp)
        (ps pages lbs : List JValue) (total : Int) (df mf : List (String × JValue)),
        loadCachedPages cache = some ps →
        blRankedOnly ps = true →
        blAggregateCached ps = some (pages, lbs) →
        blCachedTotal pages lbs = some total →
        net.getD 0 NetResp.exc = NetResp.resp 200 (some (JValue.obj df)) →
        jOr (jGet df "metadata") (JValue.obj []) = JValue.obj mf →
        (pyInt (jGetD mf "total" (JValue.num total))).getD total ≤ total →
        blGetLeaderboardsRanked cache net = some (lbs, [1])) := by
  constructor
  · intro cache net ex lbs df mf t pp0 hded hnet hmeta ht hpp hle
    simp only [ssGetLeaderboardsRanked, hded, hnet, hmeta, ht, hpp]
    norm_num
    intro hlt
    exact absurd hle (by omega)
  · intro cache net ps pages lbs total df mf hload hro hagg htotal hnet hmeta hle
    simp only [blGetLeaderboardsRanked, hload, hro, if_true]
    rw [hagg]
    dsimp only
    rw [htotal]
    dsimp only
    rw [hnet]
    simp only [hmeta]
    norm_num
    intro hlt
    exact absurd hle (by omega)

/-- Closed instance of the C5 theorem on a one-chart cache for each service
with an unchanged fresh total. -/
theorem c5_cache_freshness_short_circuit_witness :
    ssGetLeaderboardsRanked c5SsCache c5SsNet = some ([c5Chart], [1])
    ∧ blGetLeaderboardsRanked c5BlCache c5BlNet = some ([c5Chart], [1]) :=
  ⟨c5_cache_freshness_short_circuit.1 c5SsCache c5SsNet
      [(JValue.num 1, c5Chart)] [c5Chart]
      [("metadata", JValue.obj [("total", JValue.num 1), ("itemsPerPage", JValue.num 100)])]
      [("total", JValue.num 1), ("itemsPerPage", JValue.num 100)] 1 100
      rfl rfl rfl rfl rfl (by decide),
    c5_cache_freshness_short_circuit.2 c5BlCache c5BlNet
      [JValue.obj [("page", JValue.num 1),
        ("params", JValue.obj [("type", JValue.str "Ranked")]),
        ("data", JValue.obj [("metadata", JValue.obj [("total", JValue.num 1)]),
          ("data", JValue.arr [c5Chart])])]]
      [JValue.obj [("page", JValue.num 1),
        ("params", JValue.obj [("type", JValue.str "Ranked")]),
        ("data", JValue.obj [("metadata", JValue.obj [("total", JValue.num 1)]),
          ("data", JValue.arr [c5Chart])])]]
      [c5Chart] 1
      [("metadata", JValue.obj [("total", JValue.num 1)])]
      [("total", JValue.num 1)]
      rfl rfl rfl rfl rfl rfl (by decide)⟩

/-- The retry loop makes at most `5 - retries` requests from any start. -/
theorem blRetryLoop_requests_le (net : Nat → RlResp) :
    ∀ (k a r : Nat), 5 - r ≤ k → r ≤ 4 → (blRetryLoop net a r).requests ≤ 5 - r := by
  intro k
  induction k with
  | zero => intro a r hk hr; omega
  | succ k ih =>
    intro a r hk hr
    rw [blRetryLoop]
    cases hnet : net a with
    | timeout =>
      dsimp only
      split_ifs with h3
      · dsimp only
        omega
      · dsimp only
        have := ih (a + 1) (r + 1) (by omega) (by omega)
        omega
    | otherExc => dsimp only; omega
    | resp st ra body =>
      dsimp only
      split_ifs with h429 h5
      · dsimp only
        omega
      · dsimp only
        have := ih (a + 1) (r + 1) (by omega) (by omega)
        omega
      · dsimp only
        omega

/-- Under a persistent read timeout the retry loop stops after `3 - retries`
requests with a 5-second sleep between consecutive requests and no result. -/
theorem blRetryLoop_timeout_eq (net : Nat → RlResp) (hnet : ∀ k, net k = RlResp.timeout) :
    ∀ (k a r : Nat), 3 - r ≤ k → r ≤ 2 →
      blRetryLoop net a r = ⟨none, 3 - r, List.replicate (2 - r) 5⟩ := by
  intro k
  induction k with
  | zero => intro a r hk hr; omega
  | succ k ih =>
    intro a r hk hr
    rw [blRetryLoop, hnet a]
    by_cases h3 : 3 ≤ r + 1
    · rw [dif_pos h3]
      have hr2 : r = 2 := by omega
      subst hr2
      rfl
    · rw [dif_neg h3]
      dsimp only
      rw [ih (a + 1) (r + 1) (by omega) (by omega)]
      have e1 : 3 - r = (3 - (r + 1)) + 1 := by omega
      have e2 : 2 - r = (2 - (r + 1)) + 1 := by omega
      rw [e1, e2]
      simp [List.replicate_succ]

/-- Under a persistent HTTP 429 the retry loop stops after `5 - retries`
requests, sleeping the `Retry-After` duration after each one. -/
theorem blRetryLoop_429_eq (ra : Option String) (body : Option JValue) :
    ∀ (k a r : Nat), 5 - r ≤ k → r ≤ 4 →
      blRetryLoop (fun _ => RlResp.resp 429 ra body) a r =
        ⟨some (429, body), 5 - r, List.replicate (5 - r) (retryAfterSec ra)⟩ := by
  intro k
  induction k with
  | zero => intro a r hk hr; omega
  | succ k ih =>
    intro a r hk hr
    rw [blRetryLoop]
    show (if (429:Nat) = 429 then
            let w := retryAfterSec ra
            if h : 5 ≤ r + 1 then (⟨some (429, body), 1, [w]⟩ : RetryOut)
            else
              let out := blRetryLoop (fun _ => RlResp.resp 429 ra body) (a + 1) (r + 1)
              (⟨out.result, out.requests + 1, w :: out.sleeps⟩ : RetryOut)
          else (⟨some ((429:Nat), body), 1, []⟩ : RetryOut)) =
        (⟨some (429, body), 5 - r, List.replicate (5 - r) (retryAfterSec ra)⟩ : RetryOut)
    rw [if_pos rfl]
    by_cases h5 : 5 ≤ r + 1
    · rw [dif_pos h5]
      have hr4 : r = 4 := by omega
      subst hr4
      rfl
    · rw [dif_neg h5]
      dsimp only
      rw [ih (a + 1) (r + 1) (by omega) (by omega)]
      have e1 : 5 - r = (5 - (r + 1)) + 1 := by omega
      rw [e1]
      simp [List.replicate_succ]

/-- Every page request count recorded by the page loop is at most 5
(or was already present in the accumulator). -/
theorem fprLoop_pageRequests_le (net : Nat → Nat → RlResp) (min_pp : ℚ) (psz : Nat) :
    ∀ (pages : List Nat) (players : List BeatLeaderPlayer) (reqs : List (Nat × Nat))
      (sleeps : List ℚ) (pr : Nat × Nat),
      pr ∈ (fprLoop net min_pp psz pages players reqs sleeps).pageRequests →
      pr ∈ reqs ∨ pr.2 ≤ 5 := by
  intro pages
  induction pages with
  | nil =>
    intro players reqs sleeps pr h
    exact Or.inl h
  | cons page rest ih =>
    intro players reqs sleeps pr h
    have hb : (blRetryLoop (net page) 0 0).requests ≤ 5 := by
      have := blRetryLoop_requests_le (net page) 5 0 0 (by omega) (by omega)
      simpa using this
    have key : pr ∈ reqs ++ [(page, (blRetryLoop (net page) 0 0).requests)] →
        pr ∈ reqs ∨ pr.2 ≤ 5 := by
      intro hm
      rcases List.mem_append.mp hm with h1 | h2
      · exact Or.inl h1
      · simp only [List.mem_singleton] at h2
        subst h2
        exact Or.inr hb
    rw [fprLoop] at h
    split at h
    · exact key h
    · split_ifs at h
      · exact key h
      · split at h
        · exact key h
        · split at h
          · split at h
            · exact key h
            · split at h
              · exact key h
              · split_ifs at h
                · exact key h
                · exact key h
                · rcases ih _ _ _ pr h with h1 | h2
                  · exact key h1
                  · exact Or.inr h2
            · exact key h
          · exact key h

/-- Concrete run: page 1 succeeds with two players, page 2 exhausts its five
429 retries, and the fetch returns the two accumulated players. -/
theorem c9_trace :
    fetch_players_ranking c9Net 0 2 2 =
      ⟨[c9Player1, c9Player2], [(1, 1), (2, 5)], List.replicate 5 10, false⟩ := by
  have h1 : blRetryLoop (c9Net 1) 0 0 =
      ⟨some (200, some (JValue.obj [("data", JValue.arr c9Items)])), 1, []⟩ := by
    rw [blRetryLoop]
    rfl
  have h2 : blRetryLoop (c9Net 2) 0 0 = ⟨some (429, none), 5, List.replicate 5 10⟩ := by
    have hfun : c9Net 2 = fun _ => RlResp.resp 429 none none := funext fun k => rfl
    rw [hfun]
    exact blRetryLoop_429_eq none none 5 0 0 (by omega) (by omega)
  have hstep1 : fprLoop c9Net 0 2 [1, 2] [] [] [] =
      fprLoop c9Net 0 2 [2] [c9Player1, c9Player2] [(1, 1)] [] := by
    rw [fprLoop.eq_def]
    dsimp only
    rw [h1]
    rfl
  have hstep2 : fprLoop c9Net 0 2 [2] [c9Player1, c9Player2] [(1, 1)] [] =
      ⟨[c9Player1, c9Player2], [(1, 1), (2, 5)], List.replicate 5 10, false⟩ := by
    rw [fprLoop.eq_def]
    dsimp only
    rw [h2]
    rfl
  show fprLoop c9Net 0 2 [1, 2] [] [] [] = _
  rw [hstep1, hstep2]

/-- C9: `fetch_players_ranking` terminates on every input with bounded
retries: every page is requested at most 5 times; a persistent read timeout
stops after 3 requests with two 5-second sleeps and no result; a persistent
HTTP 429 stops after 5 requests, sleeping the `Retry-After` duration (or the
10-second fallback) before each retry and before giving up; and after
exhausting the retries for a page the function returns the players
accumulated so far instead of raising. -/
theorem c9_bounded_retry_termination :
    (∀ (net : Nat → Nat → RlResp) (min_pp : ℚ) (page_size max_pages : Nat)
        (pr : Nat × Nat),
        pr ∈ (fetch_players_ranking net min_pp page_size max_pages).pageRequests →
        pr.2 ≤ 5) ∧
    (∀ (net : Nat → RlResp), (∀ k, net k = RlResp.timeout) →
        blRetryLoop net 0 0 = ⟨none, 3, [5, 5]⟩) ∧
    (∀ (ra : Option String) (body : Option JValue) (a : Nat),
        blRetryLoop (fun _ => RlResp.resp 429 ra body) a 0 =
          ⟨some (429, body), 5, List.replicate 5 (retryAfterSec ra)⟩) ∧
    fetch_players_ranking c9Net 0 2 2 =
      ⟨[c9Player1, c9Player2], [(1, 1), (2, 5)], List.replicate 5 10, false⟩ := by
  refine ⟨?_, ?_, ?_, c9_trace⟩
  · intro net min_pp page_size max_pages pr h
    rcases fprLoop_pageRequests_le net min_pp page_size _ [] [] [] pr h with h1 | h2
    · simp at h1
    · exact h2
  · intro net hnet
    exact blRetryLoop_timeout_eq net hnet 3 0 0 (by omega) (by omega)
  · intro ra body a
    exact blRetryLoop_429_eq ra body 5 a 0 (by omega) (by omega)

theorem c9_bounded_retry_termination_witness :
    ((2 : Nat), (5 : Nat)).2 ≤ 5 ∧
      blRetryLoop (fun _ => RlResp.timeout) 0 0 = ⟨none, 3, [5, 5]⟩ := by
  refine ⟨?_, ?_⟩
  · exact c9_bounded_retry_termination.1 c9Net 0 2 2 (2, 5)
      (by rw [c9_bounded_retry_termination.2.2.2]; simp)
  · exact c9_bounded_retry_termination.2.1 (fun _ => RlResp.timeout) (fun k => rfl)
